import Mathlib

/-! # Version handler and timer scheduler of the rbc_mesh broadcast mesh

Shallow embedding of `nRF51/rbc_mesh/src/version_handler.c` and
`nRF51/rbc_mesh/src/timer_control.c`.

* C globals (`g_md_set`, `g_is_initialized`, the static sweep cursor) are the
  fields of `vh_state`, passed explicitly.
* `uint8_t`/`uint16_t`/`uint32_t`/`uint64_t` values are natural numbers; every
  place where the C arithmetic can leave the type's range carries an explicit
  reduction modulo `2^w`.
* `g_md_set.md` is a list; an access outside it is undefined in C and makes
  the embedded operation return `none`.
* Calls into the collaborators (SoftDevice address, timeslot handler, timer,
  event queue, Trickle, allocator) read their answers from `vh_env`.
-/

/-! ## Constants of version_handler.c -/

def MESH_TRICKLE_I_MAX : Nat := 2000
def MESH_TRICKLE_K : Nat := 3
def MESH_VALUE_LOLLIPOP_LIMIT : Nat := 200
def TIMESLOT_STARTUP_DELAY_US : Nat := 100
def MESH_MD_FLAGS_USED_POS : Nat := 0
def MESH_MD_FLAGS_INITIALIZED_POS : Nat := 1
def MESH_MD_FLAGS_IS_ORIGIN_POS : Nat := 2
def UINT16_MAX : Nat := 65535
def UINT64_MAX : Nat := 18446744073709551615

/-! ## Types -/

/-- Result codes of `nrf_error.h` that the version handler returns. -/
inductive nrf_error_t where
  | NRF_SUCCESS
  | NRF_ERROR_NO_MEM
  | NRF_ERROR_INVALID_PARAM
  | NRF_ERROR_INVALID_STATE
  | NRF_ERROR_NULL
  | NRF_ERROR_INVALID_ADDR
  deriving DecidableEq, Repr

/-- Classification of an observed value, `vh_data_status_t` of version_handler.h. -/
inductive vh_data_status_t where
  | VH_DATA_STATUS_NEW
  | VH_DATA_STATUS_UPDATED
  | VH_DATA_STATUS_OLD
  | VH_DATA_STATUS_SAME
  | VH_DATA_STATUS_CONFLICTING
  | VH_DATA_STATUS_UNKNOWN
  deriving DecidableEq, Repr

open nrf_error_t vh_data_status_t

/-- Device address of the SoftDevice API: a type byte and the address bytes.
`memcmp` over the whole struct is equality of these values. -/
structure ble_gap_addr_t where
  addr_type : Nat
  addr : List Nat
  deriving DecidableEq, Repr

/-- Trickle instance. The version handler reads only `t`, the absolute time of
the next transmission; `other` stands for the remaining fields, which only the
Trickle module touches. -/
structure trickle_t where
  t : Nat
  other : Nat
  deriving DecidableEq, Repr

/-- Per-value metadata record, `metadata_t`. -/
structure metadata_t where
  version_number : Nat
  char_value_handle : Nat
  flags : Nat
  crc : Nat
  last_sender_addr : ble_gap_addr_t
  trickle : trickle_t
  deriving DecidableEq, Repr

/-- The metadata array and its length, `metadata_set_t`. A NULL `md` is the
empty list. -/
structure metadata_set_t where
  md : List metadata_t
  handle_count : Nat
  deriving DecidableEq, Repr

/-- Calls that leave the version handler, in the order they are made. -/
inductive vh_call where
  | trickle_setup (i_min i_max k : Nat)
  | event_handler_push (timestamp : Nat)
  | trickle_tx_timeout (index : Nat)
  | tc_tx (handle version : Nat) (addr : ble_gap_addr_t)
  | trickle_tx_register (index : Nat)
  | timer_order_cb (timer time : Nat)
  deriving DecidableEq, Repr

/-- Module state: the two static globals, the static cursor `handle` of
`transmit_all_instances`, and the outgoing calls made so far. -/
structure vh_state where
  g_md_set : metadata_set_t
  g_is_initialized : Bool
  handle : Nat
  calls : List vh_call
  deriving DecidableEq, Repr

/-- Answers of the collaborators during one call into the version handler. -/
structure vh_env where
  MAX_VALUE_COUNT : Nat
  calloc_ok : Bool
  my_addr : ble_gap_addr_t
  global_time : Nat
  timestamp : Nat
  push_result : nrf_error_t
  trickle_timer_reset : trickle_t → Nat → trickle_t
  trickle_rx_consistent : trickle_t → Nat → trickle_t
  trickle_rx_inconsistent : trickle_t → Nat → trickle_t
  end_time : Nat
  TIMER_INDEX_VH : Nat
  trickle_tx_timeout : trickle_t → Nat → trickle_t × Bool
  trickle_tx_register : trickle_t → trickle_t
  tc_tx : Nat → Nat → ble_gap_addr_t → nrf_error_t

/-! ## State before `vh_init` and freshly allocated records -/

/-- A record as `calloc` returns it: every byte zero. -/
def metadata_zero : metadata_t :=
  { version_number := 0, char_value_handle := 0, flags := 0, crc := 0,
    last_sender_addr := { addr_type := 0, addr := [0, 0, 0, 0, 0, 0] },
    trickle := { t := 0, other := 0 } }

/-- Static storage at program start. -/
def vh_state_reset : vh_state :=
  { g_md_set := { md := [], handle_count := 0 }, g_is_initialized := false,
    handle := 0, calls := [] }

/-! ## Functions of version_handler.c -/

/-- Flag test `flags & (1 << pos)` used as a condition. -/
def flag_is_set (flags pos : Nat) : Bool :=
  (flags &&& (1 <<< pos)) != 0

/-- Lollipop increment `version_increase`: 65535 goes to the limit, every
other value is incremented (in `uint16_t`). -/
def version_increase (version : Nat) : Nat :=
  if version = UINT16_MAX then MESH_VALUE_LOLLIPOP_LIMIT
  else (version + 1) % 65536

/-- Queue a sweep: `vh_order_update` pushes a timer event that carries
`transmit_all_instances` and the timestamp, and returns the queue's result. -/
def vh_order_update (env : vh_env) (st : vh_state) (time_now : Nat) :
    vh_state × nrf_error_t :=
  ({ st with calls := st.calls ++ [vh_call.event_handler_push time_now] },
   env.push_result)

/-- Allocation and setup, `vh_init`. -/
def vh_init (env : vh_env) (st : vh_state) (handle_count min_interval_us : Nat) :
    vh_state × nrf_error_t :=
  if handle_count = 0 ∨ handle_count > env.MAX_VALUE_COUNT then
    (st, NRF_ERROR_INVALID_PARAM)
  else if env.calloc_ok = false then
    ({ st with g_md_set := { st.g_md_set with md := [] } }, NRF_ERROR_NO_MEM)
  else
    ({ st with
        g_md_set := { md := List.replicate handle_count metadata_zero,
                      handle_count := handle_count },
        g_is_initialized := true,
        calls := st.calls ++
          [vh_call.trickle_setup min_interval_us MESH_TRICKLE_I_MAX MESH_TRICKLE_K] },
     NRF_SUCCESS)

/-- The `uint16_t separation` of `vh_compare_metadata`: the operands are
promoted to `int`, the difference is converted back to 16 bits. -/
def separation (version stored : Nat) : Nat :=
  if version ≥ stored then
    (((version : Int) - (stored : Int)) % 65536).toNat
  else
    (((version : Int) - (stored : Int) - (MESH_VALUE_LOLLIPOP_LIMIT : Int)) % 65536).toNat

/-- Classification of incoming metadata against the stored record,
`vh_compare_metadata`. -/
def vh_compare_metadata (env : vh_env) (st : vh_state) (handle version crc : Nat)
    (origin_is_me : Bool) : Option vh_data_status_t :=
  if st.g_is_initialized = false then some VH_DATA_STATUS_UNKNOWN
  else if handle > st.g_md_set.handle_count ∨ handle = 0 then some VH_DATA_STATUS_UNKNOWN
  else
    match st.g_md_set.md[handle - 1]? with
    | none => none
    | some p_md =>
      let uninitialized := !(flag_is_set p_md.flags MESH_MD_FLAGS_INITIALIZED_POS)
      let sep := separation version p_md.version_number
      if version = p_md.version_number then
        if (origin_is_me = true ∧ p_md.last_sender_addr = env.my_addr) ∨
            crc = p_md.crc ∨ version = 0 then
          some VH_DATA_STATUS_SAME
        else
          some VH_DATA_STATUS_CONFLICTING
      else if uninitialized = true then
        some VH_DATA_STATUS_NEW
      else if (p_md.version_number < MESH_VALUE_LOLLIPOP_LIMIT ∧
                version > p_md.version_number) ∨
              (p_md.version_number ≥ MESH_VALUE_LOLLIPOP_LIMIT ∧
                version ≥ MESH_VALUE_LOLLIPOP_LIMIT ∧
                sep < (UINT16_MAX - MESH_VALUE_LOLLIPOP_LIMIT) / 2) then
        some VH_DATA_STATUS_UPDATED
      else
        some VH_DATA_STATUS_OLD

/-- Write a record back through `p_md = &g_md_set.md[handle-1]`. -/
def md_store (st : vh_state) (handle : Nat) (p_md : metadata_t) : vh_state :=
  { st with g_md_set := { st.g_md_set with md := st.g_md_set.md.set (handle - 1) p_md } }

/-- Statements under `case VH_DATA_STATUS_UPDATED:` up to the fallthrough. -/
def rx_adopt (p_md : metadata_t) (version crc : Nat) (origin : ble_gap_addr_t) :
    metadata_t :=
  { p_md with version_number := version, crc := crc, last_sender_addr := origin }

/-- Statements under `case VH_DATA_STATUS_OLD: case VH_DATA_STATUS_CONFLICTING:`. -/
def rx_mark_inconsistent (env : vh_env) (p_md : metadata_t) (timestamp : Nat) :
    metadata_t :=
  { p_md with
    flags := (p_md.flags ||| (1 <<< MESH_MD_FLAGS_INITIALIZED_POS)) % 256,
    trickle := env.trickle_rx_inconsistent p_md.trickle
      ((env.global_time + timestamp) % 2 ^ 64) }

/-- Side effects of a classified reception, `vh_rx_register`. The `switch`
falls through NEW → UPDATED → OLD/CONFLICTING. -/
def vh_rx_register (env : vh_env) (st : vh_state) (status : vh_data_status_t)
    (handle version crc : Nat) (origin : ble_gap_addr_t) (timestamp : Nat) :
    Option (vh_state × nrf_error_t) :=
  if st.g_is_initialized = false then some (st, NRF_ERROR_INVALID_STATE)
  else if handle > st.g_md_set.handle_count ∨ handle = 0 then
    some (st, NRF_ERROR_INVALID_ADDR)
  else
    match st.g_md_set.md[handle - 1]? with
    | none => none
    | some p_md =>
      match status with
      | VH_DATA_STATUS_NEW =>
        let st1 := (vh_order_update env st timestamp).1
        some (md_store st1 handle
          (rx_mark_inconsistent env (rx_adopt p_md version crc origin) timestamp),
          NRF_SUCCESS)
      | VH_DATA_STATUS_UPDATED =>
        some (md_store st handle
          (rx_mark_inconsistent env (rx_adopt p_md version crc origin) timestamp),
          NRF_SUCCESS)
      | VH_DATA_STATUS_OLD =>
        some (md_store st handle (rx_mark_inconsistent env p_md timestamp), NRF_SUCCESS)
      | VH_DATA_STATUS_CONFLICTING =>
        some (md_store st handle (rx_mark_inconsistent env p_md timestamp), NRF_SUCCESS)
      | VH_DATA_STATUS_SAME =>
        some (md_store st handle
          { p_md with
            crc := crc,
            trickle := env.trickle_rx_consistent p_md.trickle
              ((env.global_time + timestamp) % 2 ^ 64) },
          NRF_SUCCESS)
      | VH_DATA_STATUS_UNKNOWN => some (st, NRF_ERROR_INVALID_PARAM)

/-- Locally originated change of a value, `vh_local_update`. -/
def vh_local_update (env : vh_env) (st : vh_state) (handle : Nat) :
    Option (vh_state × vh_data_status_t) :=
  if st.g_is_initialized = false then some (st, VH_DATA_STATUS_UNKNOWN)
  else if handle > st.g_md_set.handle_count ∨ handle = 0 then
    some (st, VH_DATA_STATUS_UNKNOWN)
  else
    match st.g_md_set.md[handle - 1]? with
    | none => none
    | some p_md =>
      let time_now := (env.timestamp + env.global_time) % 2 ^ 64
      let was_init := flag_is_set p_md.flags MESH_MD_FLAGS_INITIALIZED_POS
      let status := if was_init = true then VH_DATA_STATUS_UPDATED else VH_DATA_STATUS_NEW
      let tr := if was_init = true then env.trickle_rx_inconsistent p_md.trickle time_now
                else env.trickle_timer_reset p_md.trickle time_now
      let p_md1 : metadata_t :=
        { p_md with
          trickle := tr,
          flags := (p_md.flags ||| ((1 <<< MESH_MD_FLAGS_INITIALIZED_POS) |||
                                    (1 <<< MESH_MD_FLAGS_USED_POS))) % 256,
          version_number := version_increase p_md.version_number,
          crc := 0xFFFFFFFF,
          last_sender_addr := env.my_addr }
      let st1 := md_store st handle p_md1
      some ((vh_order_update env st1 0).1, status)

/-- Store the correlation handle of a value, `vh_set_gatts_handle`. -/
def vh_set_gatts_handle (st : vh_state) (value_handle gatts_handle : Nat) :
    Option (vh_state × nrf_error_t) :=
  if st.g_is_initialized = false then some (st, NRF_ERROR_INVALID_STATE)
  else if value_handle > st.g_md_set.handle_count ∨ value_handle = 0 then
    some (st, NRF_ERROR_INVALID_ADDR)
  else
    match st.g_md_set.md[value_handle - 1]? with
    | none => none
    | some p_md =>
      some (md_store st value_handle { p_md with char_value_handle := gatts_handle },
        NRF_SUCCESS)

/-- Read the correlation handle of a value, `vh_get_gatts_handle`. The second
component is what is written through the pointer `gatts_handle`;
`gatts_handle_null` says that the pointer is NULL. -/
def vh_get_gatts_handle (st : vh_state) (value_handle : Nat) (gatts_handle_null : Bool) :
    Option (nrf_error_t × Option Nat) :=
  if st.g_is_initialized = false then some (NRF_ERROR_INVALID_STATE, none)
  else if value_handle > st.g_md_set.handle_count ∨ value_handle = 0 then
    some (NRF_ERROR_INVALID_ADDR, none)
  else if gatts_handle_null = true then some (NRF_ERROR_NULL, none)
  else
    match st.g_md_set.md[value_handle - 1]? with
    | none => none
    | some p_md => some (NRF_SUCCESS, some p_md.char_value_handle)

/-- Read the origin address of a value, `vh_get_origin_addr`. The array is
indexed with `handle`, as in the source; the second component is what
`memcpy` writes to `addr`. -/
def vh_get_origin_addr (st : vh_state) (handle : Nat) :
    Option (nrf_error_t × Option ble_gap_addr_t) :=
  if st.g_is_initialized = false then some (NRF_ERROR_INVALID_STATE, none)
  else if handle > st.g_md_set.handle_count ∨ handle = 0 then
    some (NRF_ERROR_INVALID_ADDR, none)
  else
    match st.g_md_set.md[handle]? with
    | none => none
    | some p_md => some (NRF_SUCCESS, some p_md.last_sender_addr)

/-- Let a value take part in the sweeps, `vh_value_enable`. -/
def vh_value_enable (env : vh_env) (st : vh_state) (handle : Nat) :
    Option (vh_state × nrf_error_t) :=
  if st.g_is_initialized = false then some (st, NRF_ERROR_INVALID_STATE)
  else if handle > st.g_md_set.handle_count ∨ handle = 0 then
    some (st, NRF_ERROR_INVALID_ADDR)
  else
    let st1 := (vh_order_update env st 0).1
    match st1.g_md_set.md[handle - 1]? with
    | none => none
    | some p_md =>
      some (md_store st1 handle
        { p_md with
          trickle := env.trickle_timer_reset p_md.trickle
            ((env.timestamp + env.global_time) % 2 ^ 64),
          flags := (p_md.flags ||| ((1 <<< MESH_MD_FLAGS_INITIALIZED_POS) |||
                                    (1 <<< MESH_MD_FLAGS_USED_POS))) % 256 },
        NRF_SUCCESS)

/-- The `int` value `~(1 << pos)` as its 32 bits. -/
def int_not_bit (pos : Nat) : Nat :=
  0xFFFFFFFF - (1 <<< pos)

/-- Take a value out of the sweeps, `vh_value_disable`. The range check is
`handle >= handle_count`, as in the source. -/
def vh_value_disable (st : vh_state) (handle : Nat) : Option (vh_state × nrf_error_t) :=
  if st.g_is_initialized = false then some (st, NRF_ERROR_INVALID_STATE)
  else if handle ≥ st.g_md_set.handle_count ∨ handle = 0 then
    some (st, NRF_ERROR_INVALID_ADDR)
  else
    match st.g_md_set.md[handle - 1]? with
    | none => none
    | some p_md =>
      some (md_store st handle
        { p_md with flags := (p_md.flags &&& int_not_bit MESH_MD_FLAGS_USED_POS) % 256 },
        NRF_SUCCESS)

/-! ## Retransmission sweep (version_handler.c) -/

/-- One step of the scan of `order_next_transmission`: the new `earliest`
after looking at a record. -/
def order_next_pick (limit earliest : Nat) (r : metadata_t) : Nat :=
  if flag_is_set r.flags MESH_MD_FLAGS_USED_POS = true ∧ r.trickle.t < earliest ∧
      r.trickle.t > limit then r.trickle.t
  else earliest

/-- The `for` loop of `order_next_transmission` with `n` iterations left at
index `i`; `limit` is `time_now + ts_begin_time`. -/
def order_next_scan (md : List metadata_t) (limit : Nat) : Nat → Nat → Nat → Option Nat
  | 0, _, earliest => some earliest
  | n + 1, i, earliest =>
    match md[i]? with
    | none => none
    | some r => order_next_scan md limit n (i + 1) (order_next_pick limit earliest r)

/-- Arm the timer for the next due value, `order_next_transmission`. The call
of `timer_order_cb` carries `transmit_all_instances` as callback; its `time`
parameter is a `uint32_t`. -/
def order_next_transmission (env : vh_env) (st : vh_state) (time_now : Nat) :
    Option vh_state :=
  let ts_begin_time := env.global_time
  let ts_end_time := env.end_time
  match order_next_scan st.g_md_set.md ((time_now + ts_begin_time) % 2 ^ 64)
      st.g_md_set.handle_count 0 UINT64_MAX with
  | none => none
  | some earliest =>
    if earliest < ts_end_time then
      some { st with
        calls := st.calls ++
          [vh_call.timer_order_cb env.TIMER_INDEX_VH
            ((((earliest : Int) - (ts_begin_time : Int)) % 2 ^ 64).toNat % 2 ^ 32)] }
    else some st

/-- The loop `while (handle >= handle_count) handle -= handle_count;` with
`fuel` iterations allowed. -/
def cursor_wrap_loop : Nat → Nat → Nat → Nat
  | 0, handle, _ => handle
  | fuel + 1, handle, count =>
    if handle ≥ count then cursor_wrap_loop fuel (handle - count) count else handle

/-- The cursor after the `while` loop; `handle` iterations are enough for a
positive `handle_count`. -/
def cursor_wrap (handle count : Nat) : Nat :=
  cursor_wrap_loop handle handle count

/-- Body of the `for` loop of `transmit_all_instances`: the state after it and
whether the loop was left with `break`. -/
def sweep_body (env : vh_env) (timestamp : Nat) (st : vh_state) : Option (vh_state × Bool) :=
  let ts_begin_time := env.global_time
  let handle := cursor_wrap st.handle st.g_md_set.handle_count
  match st.g_md_set.md[handle]? with
  | none => none
  | some r =>
    if flag_is_set r.flags MESH_MD_FLAGS_USED_POS = true ∧
        r.trickle.t ≤ (timestamp + ts_begin_time) % 2 ^ 64 then
      let res := env.trickle_tx_timeout r.trickle ((timestamp + ts_begin_time) % 2 ^ 64)
      if res.2 = true then
        if env.tc_tx (handle + 1) r.version_number r.last_sender_addr ≠ NRF_SUCCESS then
          some ({ st with
            g_md_set := { st.g_md_set with
              md := st.g_md_set.md.set handle { r with trickle := res.1 } },
            handle := handle,
            calls := st.calls ++ [vh_call.trickle_tx_timeout handle,
              vh_call.tc_tx (handle + 1) r.version_number r.last_sender_addr] }, true)
        else
          some ({ st with
            g_md_set := { st.g_md_set with
              md := st.g_md_set.md.set handle
                { r with trickle := env.trickle_tx_register res.1 } },
            handle := (handle + 1) % 2 ^ 32,
            calls := st.calls ++ [vh_call.trickle_tx_timeout handle,
              vh_call.tc_tx (handle + 1) r.version_number r.last_sender_addr,
              vh_call.trickle_tx_register handle] }, false)
      else
        some ({ st with
          g_md_set := { st.g_md_set with
            md := st.g_md_set.md.set handle { r with trickle := res.1 } },
          handle := (handle + 1) % 2 ^ 32,
          calls := st.calls ++ [vh_call.trickle_tx_timeout handle] }, false)
    else
      some ({ st with handle := (handle + 1) % 2 ^ 32 }, false)

/-- The `for` loop of `transmit_all_instances` with `n` iterations left. -/
def sweep_loop (env : vh_env) (timestamp : Nat) : Nat → vh_state → Option vh_state
  | 0, st => some st
  | n + 1, st =>
    match sweep_body env timestamp st with
    | none => none
    | some (st1, true) => some st1
    | some (st1, false) => sweep_loop env timestamp n st1

/-- The sweep `transmit_all_instances`: one pass over the values from the
cursor, then `order_next_transmission`. -/
def transmit_all_instances (env : vh_env) (st : vh_state) (timestamp : Nat) :
    Option vh_state :=
  match sweep_loop env timestamp st.g_md_set.handle_count st with
  | none => none
  | some st1 => order_next_transmission env st1 timestamp

/-! ## Timer scheduler (timer_control.c) -/

/-- Static globals of timer_control.c and the registers of `NRF_TIMER0` and
`NRF_PPI` that the file touches. Register arrays and the callback table are
maps from the index; a callback is the number that identifies the function.
`INTEN` holds the interrupt-enable bits behind `INTENSET`/`INTENCLR`, `PPI_CHEN`
the channel-enable bits behind `CHENSET`/`CHENCLR`, `irq_masked` the interrupt
mask that `__disable_irq` sets. -/
structure timer_state where
  CC : Nat → Nat
  EVENTS_COMPARE : Nat → Nat
  INTEN : Nat
  PPI_CH_EEP : Nat → Nat
  PPI_CH_TEP : Nat → Nat
  PPI_CHEN : Nat
  callbacks : Nat → Nat
  active_callbacks : Nat
  sync_exec_bitmap : Nat
  irq_masked : Bool

/-- Constants of the headers used by timer_control.c, the outcome of the
`CHECK_FP` test of a callback, the address of each compare-event register,
and what running a callback with a timestamp does to the scheduler. -/
structure timer_env where
  TIMER_INDEX_TS_END : Nat
  TIMER_INTENSET_COMPARE0_Pos : Nat
  TIMER_INTENCLR_COMPARE0_Pos : Nat
  TIMER_PPI_CH_START : Nat
  EVENTS_COMPARE_addr : Nat → Nat
  check_fp : Nat → Bool
  run_cb : Nat → Nat → timer_state → timer_state

/-- One dispatch made by `timer_event_handler` for a channel: the callback
called in interrupt context, the callback handed to `event_handler_push`, or
the error path of `CHECK_FP`. -/
inductive timer_dispatch where
  | invoked (channel cb timestamp : Nat)
  | pushed (channel cb timestamp : Nat)
  | fault (channel cb : Nat)
  deriving DecidableEq, Repr

/-- Write to a set register (`INTENSET`, `CHENSET`): the written ones are set. -/
def reg_set (reg mask : Nat) : Nat :=
  (reg ||| mask) % 2 ^ 32

/-- Write to a clear register (`INTENCLR`, `CHENCLR`): the written ones are
cleared. -/
def reg_clr (reg mask : Nat) : Nat :=
  reg &&& (0xFFFFFFFF - mask % 2 ^ 32)

/-- Update of a `uint8_t` bitmap, `bitmap |= (1 << pos)`. -/
def bitmap_set (bitmap pos : Nat) : Nat :=
  (bitmap ||| (1 <<< pos)) % 256

/-- Update of a `uint8_t` bitmap, `bitmap &= ~(1 << pos)`. -/
def bitmap_clr (bitmap pos : Nat) : Nat :=
  (bitmap &&& int_not_bit pos) % 256

/-- Window test `is_in_ts`: the timeslot-end compare event is not signaled. -/
def is_in_ts (env : timer_env) (st : timer_state) : Bool :=
  st.EVENTS_COMPARE env.TIMER_INDEX_TS_END == 0

/-- Entry `__disable_irq()`. -/
def irq_disable (st : timer_state) : timer_state :=
  { st with irq_masked := true }

/-- Exit `if (!was_masked) __enable_irq()`. -/
def irq_restore (was_masked : Bool) (st : timer_state) : timer_state :=
  if was_masked = false then { st with irq_masked := false } else st

/-- Arm a slot with a deferred callback, `timer_order_cb`. -/
def timer_order_cb (env : timer_env) (st : timer_state) (timer time callback : Nat) :
    timer_state :=
  let was_masked := st.irq_masked
  let st0 := irq_disable st
  let st1 :=
    if is_in_ts env st0 = true then
      { st0 with
        CC := Function.update st0.CC timer time,
        EVENTS_COMPARE := Function.update st0.EVENTS_COMPARE timer 0,
        INTEN := reg_set st0.INTEN (1 <<< (env.TIMER_INTENSET_COMPARE0_Pos + timer)),
        callbacks := Function.update st0.callbacks timer callback,
        active_callbacks := bitmap_set st0.active_callbacks timer }
    else st0
  irq_restore was_masked st1

/-- Arm a slot with a callback to run in interrupt context,
`timer_order_cb_sync_exec`. -/
def timer_order_cb_sync_exec (env : timer_env) (st : timer_state)
    (timer time callback : Nat) : timer_state :=
  let was_masked := st.irq_masked
  let st0 := irq_disable st
  let st1 :=
    if is_in_ts env st0 = true then
      { st0 with
        sync_exec_bitmap := bitmap_set st0.sync_exec_bitmap timer,
        CC := Function.update st0.CC timer time,
        EVENTS_COMPARE := Function.update st0.EVENTS_COMPARE timer 0,
        INTEN := reg_set st0.INTEN (1 <<< (env.TIMER_INTENSET_COMPARE0_Pos + timer)),
        callbacks := Function.update st0.callbacks timer callback,
        active_callbacks := bitmap_set st0.active_callbacks timer }
    else st0
  irq_restore was_masked st1

/-- Arm a slot with a deferred callback and a PPI task, `timer_order_cb_ppi`. -/
def timer_order_cb_ppi (env : timer_env) (st : timer_state)
    (timer time callback task : Nat) : timer_state :=
  let was_masked := st.irq_masked
  let st0 := irq_disable st
  let st1 :=
    if is_in_ts env st0 = true then
      { st0 with
        EVENTS_COMPARE := Function.update st0.EVENTS_COMPARE timer 0,
        INTEN := reg_set
          (reg_clr st0.INTEN (1 <<< (env.TIMER_INTENCLR_COMPARE0_Pos + timer)))
          (1 <<< (env.TIMER_INTENSET_COMPARE0_Pos + timer)),
        CC := Function.update st0.CC timer time,
        callbacks := Function.update st0.callbacks timer callback,
        active_callbacks := bitmap_set st0.active_callbacks timer,
        PPI_CH_EEP := Function.update st0.PPI_CH_EEP (env.TIMER_PPI_CH_START + timer)
          (env.EVENTS_COMPARE_addr timer),
        PPI_CH_TEP := Function.update st0.PPI_CH_TEP (env.TIMER_PPI_CH_START + timer) task,
        PPI_CHEN := reg_set st0.PPI_CHEN (1 <<< (env.TIMER_PPI_CH_START + timer)) }
    else st0
  irq_restore was_masked st1

/-- Arm a PPI task without a callback, `timer_order_ppi`. -/
def timer_order_ppi (env : timer_env) (st : timer_state) (timer time task : Nat) :
    timer_state :=
  let was_masked := st.irq_masked
  let st0 := irq_disable st
  let st1 :=
    if is_in_ts env st0 = true then
      { st0 with
        EVENTS_COMPARE := Function.update st0.EVENTS_COMPARE timer 0,
        INTEN := reg_clr st0.INTEN (1 <<< (env.TIMER_INTENCLR_COMPARE0_Pos + timer)),
        CC := Function.update st0.CC timer time,
        PPI_CH_EEP := Function.update st0.PPI_CH_EEP (env.TIMER_PPI_CH_START + timer)
          (env.EVENTS_COMPARE_addr timer),
        PPI_CH_TEP := Function.update st0.PPI_CH_TEP (env.TIMER_PPI_CH_START + timer) task,
        PPI_CHEN := reg_set st0.PPI_CHEN (1 <<< (env.TIMER_PPI_CH_START + timer)) }
    else st0
  irq_restore was_masked st1

/-- Cancel a slot, `timer_abort`. -/
def timer_abort (env : timer_env) (st : timer_state) (timer : Nat) : timer_state :=
  let was_masked := st.irq_masked
  let st0 := irq_disable st
  let st1 :=
    if is_in_ts env st0 = true then
      if timer < 4 then
        { st0 with
          INTEN := reg_clr st0.INTEN (1 <<< (env.TIMER_INTENCLR_COMPARE0_Pos + timer)),
          active_callbacks := bitmap_clr st0.active_callbacks timer,
          PPI_CHEN := reg_clr st0.PPI_CHEN (1 <<< (env.TIMER_PPI_CH_START + timer)) }
      else st0
    else st0
  irq_restore was_masked st1

/-- Body of the `for` loop of `timer_event_handler` for channel `i`: the state
after it, what was dispatched, and whether the `CHECK_FP` error path was
taken. -/
def timer_event_handler_body (env : timer_env) (i : Nat) (st : timer_state) :
    timer_state × List timer_dispatch × Bool :=
  if flag_is_set st.active_callbacks i = true ∧ st.EVENTS_COMPARE i ≠ 0 then
    let cb := st.callbacks i
    let st1 : timer_state :=
      { st with
        active_callbacks := bitmap_clr st.active_callbacks i,
        INTEN := reg_clr st.INTEN (1 <<< (env.TIMER_INTENCLR_COMPARE0_Pos + i)) }
    if env.check_fp cb = false then
      (st1, [timer_dispatch.fault i cb], true)
    else if flag_is_set st1.sync_exec_bitmap i = true then
      let st2 : timer_state :=
        { st1 with sync_exec_bitmap := bitmap_clr st1.sync_exec_bitmap i }
      (env.run_cb cb (st2.CC i) st2, [timer_dispatch.invoked i cb (st2.CC i)], false)
    else
      (st1, [timer_dispatch.pushed i cb (st1.CC i)], false)
  else
    (st, [], false)

/-- The loop `for (i = ...; i < 3; ++i)` with `n` iterations left; it ends
early only on the error path. -/
def timer_event_loop (env : timer_env) : Nat → Nat → timer_state →
    timer_state × List timer_dispatch
  | 0, _, st => (st, [])
  | n + 1, i, st =>
    let r := timer_event_handler_body env i st
    if r.2.2 = true then (r.1, r.2.1)
    else
      let rest := timer_event_loop env n (i + 1) r.1
      (rest.1, r.2.1 ++ rest.2)

/-- Interrupt handler `timer_event_handler`: channels 0, 1, 2 in turn. -/
def timer_event_handler (env : timer_env) (st : timer_state) :
    timer_state × List timer_dispatch :=
  timer_event_loop env 3 0 st

/-! ## Auxiliary definitions for the statements -/

/-- The engine has been set up and its array holds `handle_count` records. -/
def vh_ready (st : vh_state) : Prop :=
  st.g_is_initialized = true ∧ st.g_md_set.md.length = st.g_md_set.handle_count

instance (st : vh_state) : Decidable (vh_ready st) := by
  unfold vh_ready; infer_instance

/-- The `INITIALIZED` bit of a record. -/
def md_initialized (p_md : metadata_t) : Bool :=
  flag_is_set p_md.flags MESH_MD_FLAGS_INITIALIZED_POS

/-- The condition for UPDATED as the specification words it: plain progress
below the ceiling, or both at or above the ceiling with `(v - s) mod 2^16`
below `(65535 - 200) / 2`. -/
def spec_updated_condition (s v : Nat) : Prop :=
  (s < 200 ∧ v > s) ∨
  (s ≥ 200 ∧ v ≥ 200 ∧ ((v : Int) - (s : Int)) % 65536 < ((65535 - 200) / 2 : Int))

instance (s v : Nat) : Decidable (spec_updated_condition s v) := by
  unfold spec_updated_condition; infer_instance

/-- The closed form of the specification for a local update: wrap to the
ceiling 200 from 65535, plain increment otherwise. -/
def spec_lollipop_next (v : Nat) : Nat :=
  if v = 65535 then 200 else v + 1

/-- State after `k` consecutive calls of `vh_local_update` on one handle, the
`i`-th call running against the collaborators' answers `env i`. -/
def vh_local_update_n (env : Nat → vh_env) (st : vh_state) (handle : Nat) :
    Nat → Option vh_state
  | 0 => some st
  | k + 1 =>
    match vh_local_update_n env st handle k with
    | none => none
    | some st1 =>
      match vh_local_update (env k) st1 handle with
      | none => none
      | some r => some r.1

/-- Version, checksum and origin of every record, in array order. -/
def md_content (st : vh_state) : List (Nat × Nat × ble_gap_addr_t) :=
  st.g_md_set.md.map (fun r => (r.version_number, r.crc, r.last_sender_addr))

/-- The `USED` bit of a record. -/
def md_used (p_md : metadata_t) : Bool :=
  flag_is_set p_md.flags MESH_MD_FLAGS_USED_POS

/-- Channel of a dispatch. -/
def timer_dispatch.chan : timer_dispatch → Nat
  | timer_dispatch.invoked c _ _ => c
  | timer_dispatch.pushed c _ _ => c
  | timer_dispatch.fault c _ => c

/-- The hardware signals the compare event of a channel. -/
def timer_hw_compare (st : timer_state) (channel : Nat) : timer_state :=
  { st with EVENTS_COMPARE := Function.update st.EVENTS_COMPARE channel 1 }

/-- The trickle times that `order_next_transmission` chooses from: `trickle.t`
of the records with USED set and `trickle.t` above `limit`. -/
def due_times (st : vh_state) (limit : Nat) : List Nat :=
  (st.g_md_set.md.filter (fun r => md_used r && decide (r.trickle.t > limit))).map
    (fun r => r.trickle.t)

/-- The array index a logged Trickle query, transport send or Trickle
registration is about. -/
def vh_call.index : vh_call → Option Nat
  | vh_call.trickle_tx_timeout i => some i
  | vh_call.tc_tx h _ _ => some (h - 1)
  | vh_call.trickle_tx_register i => some i
  | _ => none

/-- Everything in a record except its Trickle instance. -/
def md_static (r : metadata_t) : Nat × Nat × Nat × Nat × ble_gap_addr_t :=
  (r.version_number, r.char_value_handle, r.flags, r.crc, r.last_sender_addr)

/-- The record at array index `i` exists and has its USED flag set. -/
def used_at (st : vh_state) (i : Nat) : Prop :=
  ∃ r, st.g_md_set.md[i]? = some r ∧ md_used r = true

/-- What a sweep step may change: `st1` differs from `st` only in Trickle
instances, the cursor and the calls `new` added to the log. -/
def sweep_frame (st st1 : vh_state) (new : List vh_call) : Prop :=
  st1.g_md_set.md.length = st.g_md_set.md.length ∧
  st1.g_md_set.handle_count = st.g_md_set.handle_count ∧
  st1.g_is_initialized = st.g_is_initialized ∧
  st1.g_md_set.md.map md_static = st.g_md_set.md.map md_static ∧
  st1.calls = st.calls ++ new

/-- One call into the version handler after `vh_init`, with the collaborators'
answers it runs against. -/
inductive vh_op where
  | rx_register (env : vh_env) (status : vh_data_status_t) (handle version crc : Nat)
      (origin : ble_gap_addr_t) (timestamp : Nat)
  | local_update (env : vh_env) (handle : Nat)
  | value_enable (env : vh_env) (handle : Nat)
  | value_disable (handle : Nat)
  | set_gatts_handle (value_handle gatts_handle : Nat)
  | sweep (env : vh_env) (timestamp : Nat)

/-- State after one call, whatever result code it returns; `none` when the
call accesses the array out of bounds. -/
def vh_step (op : vh_op) (st : vh_state) : Option vh_state :=
  match op with
  | vh_op.rx_register env status handle version crc origin timestamp =>
    (vh_rx_register env st status handle version crc origin timestamp).map Prod.fst
  | vh_op.local_update env handle => (vh_local_update env st handle).map Prod.fst
  | vh_op.value_enable env handle => (vh_value_enable env st handle).map Prod.fst
  | vh_op.value_disable handle => (vh_value_disable st handle).map Prod.fst
  | vh_op.set_gatts_handle value_handle gatts_handle =>
    (vh_set_gatts_handle st value_handle gatts_handle).map Prod.fst
  | vh_op.sweep env timestamp => transmit_all_instances env st timestamp

/-- State after a sequence of calls, first call first. -/
def vh_run : List vh_op → vh_state → Option vh_state
  | [], st => some st
  | op :: ops, st =>
    match vh_step op st with
    | none => none
    | some st1 => vh_run ops st1

/-- The engine is set up and every record whose INITIALIZED flag is clear has
version 0. -/
def vh_fresh_inv (st : vh_state) : Prop :=
  vh_ready st ∧
  ∀ r ∈ st.g_md_set.md, md_initialized r = false → r.version_number = 0

/-- The record at array index `i` exists, has its USED flag set and its
Trickle time has come for a sweep called with `timestamp`: the test of line
125-126 succeeds on it. -/
def due_at (env : vh_env) (timestamp : Nat) (st : vh_state) (i : Nat) : Prop :=
  ∃ r, st.g_md_set.md[i]? = some r ∧ md_used r = true ∧
    r.trickle.t ≤ (timestamp + env.global_time) % 2 ^ 64

/-! ## Concrete inputs used to exercise the statements -/

/-- An address for this node. -/
def ex_my_addr : ble_gap_addr_t := { addr_type := 0, addr := [1, 2, 3, 4, 5, 6] }

/-- An address of another node. -/
def ex_peer_addr : ble_gap_addr_t := { addr_type := 1, addr := [9, 9, 9, 9, 9, 9] }

/-- A sample environment: Trickle moves `t` past the given time. -/
def ex_env : vh_env :=
  { MAX_VALUE_COUNT := 155, calloc_ok := true, my_addr := ex_my_addr,
    global_time := 1000, timestamp := 50, push_result := NRF_SUCCESS,
    trickle_timer_reset := fun tr now => { tr with t := now + 10 },
    trickle_rx_consistent := fun tr _ => tr,
    trickle_rx_inconsistent := fun tr now => { tr with t := now + 5 },
    end_time := 11000, TIMER_INDEX_VH := 2,
    trickle_tx_timeout := fun tr now => ({ tr with t := now + 40 }, true),
    trickle_tx_register := fun tr => { tr with other := tr.other + 1 },
    tc_tx := fun handle _ _ => if handle = 2 then NRF_ERROR_NO_MEM else NRF_SUCCESS }

/-- A record with the given version, flags and checksum, last sent by a peer. -/
def ex_record (version flags crc : Nat) : metadata_t :=
  { version_number := version, char_value_handle := 0, flags := flags, crc := crc,
    last_sender_addr := ex_peer_addr, trickle := { t := 0, other := 0 } }

/-- An initialized engine holding the given records. -/
def ex_state (md : List metadata_t) : vh_state :=
  { g_md_set := { md := md, handle_count := md.length }, g_is_initialized := true,
    handle := 0, calls := [] }

/-- Scheduler storage with every register and table entry zero. -/
def ex_timer_zero : timer_state :=
  { CC := fun _ => 0, EVENTS_COMPARE := fun _ => 0, INTEN := 0,
    PPI_CH_EEP := fun _ => 0, PPI_CH_TEP := fun _ => 0, PPI_CHEN := 0,
    callbacks := fun _ => 0, active_callbacks := 0, sync_exec_bitmap := 0,
    irq_masked := false }

/-- A sample scheduler environment: the timeslot end is channel 3, every
callback passes `CHECK_FP`, and callbacks leave the scheduler alone. -/
def ex_timer_env : timer_env :=
  { TIMER_INDEX_TS_END := 3, TIMER_INTENSET_COMPARE0_Pos := 16,
    TIMER_INTENCLR_COMPARE0_Pos := 16, TIMER_PPI_CH_START := 8,
    EVENTS_COMPARE_addr := fun i => 0x40008140 + 4 * i,
    check_fp := fun _ => true, run_cb := fun _ _ st => st }

/-- A record that is USED and INITIALIZED with the given version and next
Trickle time. -/
def ex_used_record (version t : Nat) : metadata_t :=
  { ex_record version 3 0 with trickle := { t := t, other := 0 } }

/-- A sample environment with a window from 0 to 2^33. -/
def ex_env_wide : vh_env :=
  { ex_env with global_time := 0, end_time := 8589934592 }

/-- A sample sequence of calls on a two-value engine: a local update of value
1, a SAME reception and a rejected disable on value 2, a disable of value 1
and a sweep. Value 2 stays uninitialized. -/
def ex_ops : List vh_op :=
  [vh_op.local_update ex_env 1,
   vh_op.rx_register ex_env VH_DATA_STATUS_SAME 2 0 77 ex_peer_addr 20,
   vh_op.value_disable 2,
   vh_op.set_gatts_handle 2 33,
   vh_op.value_disable 1,
   vh_op.value_enable ex_env 1,
   vh_op.sweep ex_env 50]

/-! ## Unfolding lemmas -/

theorem vh_compare_metadata_at (env : vh_env) (st : vh_state)
    (handle version crc : Nat) (origin_is_me : Bool) (p_md : metadata_t)
    (hready : vh_ready st) (h1 : 1 ≤ handle) (h2 : handle ≤ st.g_md_set.handle_count)
    (hrec : st.g_md_set.md[handle - 1]? = some p_md) :
    vh_compare_metadata env st handle version crc origin_is_me =
      if version = p_md.version_number then
        if (origin_is_me = true ∧ p_md.last_sender_addr = env.my_addr) ∨
            crc = p_md.crc ∨ version = 0 then
          some VH_DATA_STATUS_SAME
        else
          some VH_DATA_STATUS_CONFLICTING
      else if md_initialized p_md = false then
        some VH_DATA_STATUS_NEW
      else if (p_md.version_number < 200 ∧ version > p_md.version_number) ∨
              (p_md.version_number ≥ 200 ∧ version ≥ 200 ∧
                separation version p_md.version_number < 32667) then
        some VH_DATA_STATUS_UPDATED
      else
        some VH_DATA_STATUS_OLD := by
  have hinit : st.g_is_initialized = true := hready.1
  have hrange : ¬ (handle > st.g_md_set.handle_count ∨ handle = 0) := by omega
  unfold vh_compare_metadata
  rw [if_neg (by simp [hinit]), if_neg hrange, hrec]
  simp [md_initialized, MESH_VALUE_LOLLIPOP_LIMIT, UINT16_MAX]

theorem separation_ge (version stored : Nat) (h : stored ≤ version) (hv : version < 65536) :
    separation version stored = version - stored := by
  unfold separation
  rw [if_pos h]
  omega

theorem separation_lt (version stored : Nat) (h : version < stored) (hs : stored < 65536)
    (hv : 200 ≤ version) :
    separation version stored = version + 65336 - stored := by
  unfold separation MESH_VALUE_LOLLIPOP_LIMIT
  rw [if_neg (by omega)]
  push_cast
  omega

/-! ## Classification -/

/-- C1: on an initialized engine and a handle in range, an incoming version
equal to the stored one is classified SAME when the update is locally
originated and the stored origin is this node, or the checksums agree, or the
version is 0, and CONFLICTING otherwise. -/
theorem compare_same_version (env : vh_env) (st : vh_state) (handle crc : Nat)
    (origin_is_me : Bool) (p_md : metadata_t)
    (hready : vh_ready st) (h1 : 1 ≤ handle) (h2 : handle ≤ st.g_md_set.handle_count)
    (hrec : st.g_md_set.md[handle - 1]? = some p_md) :
    (vh_compare_metadata env st handle p_md.version_number crc origin_is_me =
      some (if (origin_is_me = true ∧ p_md.last_sender_addr = env.my_addr) ∨
              crc = p_md.crc ∨ p_md.version_number = 0
            then VH_DATA_STATUS_SAME else VH_DATA_STATUS_CONFLICTING)) ∧
    (crc ≠ p_md.crc → ¬ (origin_is_me = true ∧ p_md.last_sender_addr = env.my_addr) →
      p_md.version_number ≠ 0 →
      vh_compare_metadata env st handle p_md.version_number crc origin_is_me =
        some VH_DATA_STATUS_CONFLICTING) ∧
    (p_md.version_number = 0 →
      vh_compare_metadata env st handle p_md.version_number crc origin_is_me =
        some VH_DATA_STATUS_SAME) := by
  rw [vh_compare_metadata_at env st handle _ crc origin_is_me p_md hready h1 h2 hrec]
  refine ⟨?_, ?_, ?_⟩
  · by_cases hc : (origin_is_me = true ∧ p_md.last_sender_addr = env.my_addr) ∨
        crc = p_md.crc ∨ p_md.version_number = 0
    · simp [hc]
    · simp [hc]
  · intro hcrc horigin hver
    have hc : ¬ ((origin_is_me = true ∧ p_md.last_sender_addr = env.my_addr) ∨
        crc = p_md.crc ∨ p_md.version_number = 0) := by
      rintro (h | h | h)
      · exact horigin h
      · exact hcrc h
      · exact hver h
    simp [hc]
  · intro hver
    simp [hver]

/-- C1 exercised: stored version 7 with checksum 11 from a peer; incoming
version 7 with checksum 12, not locally originated, is CONFLICTING. -/
theorem compare_same_version_witness :
    vh_ready (ex_state [ex_record 7 2 11]) ∧
    vh_compare_metadata ex_env (ex_state [ex_record 7 2 11]) 1 7 12 false =
      some VH_DATA_STATUS_CONFLICTING :=
  ⟨by decide,
   (compare_same_version ex_env (ex_state [ex_record 7 2 11]) 1 12 false
      (ex_record 7 2 11) (by decide) (by decide) (by decide) rfl).2.1
      (by decide) (by decide) (by decide)⟩

/-- C2, as stated, fails: right after `vh_init` the record of handle 1 has its
INITIALIZED flag clear, yet incoming version 0 is classified SAME, not NEW. -/
theorem compare_new_iff_uninitialized_counterexample :
    vh_ready (vh_init ex_env vh_state_reset 1 100).1 ∧
    (vh_init ex_env vh_state_reset 1 100).1.g_md_set.md[1 - 1]? = some metadata_zero ∧
    md_initialized metadata_zero = false ∧
    vh_compare_metadata ex_env (vh_init ex_env vh_state_reset 1 100).1 1 0 5 false =
      some VH_DATA_STATUS_SAME ∧
    ¬ (vh_compare_metadata ex_env (vh_init ex_env vh_state_reset 1 100).1 1 0 5 false =
        some VH_DATA_STATUS_NEW ↔ md_initialized metadata_zero = false) := by
  decide

/-- C2 (amended): on an initialized engine and a handle in range, the
classification is NEW if and only if the record's INITIALIZED flag is clear
and the incoming version differs from the stored version. -/
theorem compare_new_iff (env : vh_env) (st : vh_state) (handle version crc : Nat)
    (origin_is_me : Bool) (p_md : metadata_t)
    (hready : vh_ready st) (h1 : 1 ≤ handle) (h2 : handle ≤ st.g_md_set.handle_count)
    (hrec : st.g_md_set.md[handle - 1]? = some p_md) :
    vh_compare_metadata env st handle version crc origin_is_me = some VH_DATA_STATUS_NEW ↔
      (md_initialized p_md = false ∧ version ≠ p_md.version_number) := by
  rw [vh_compare_metadata_at env st handle version crc origin_is_me p_md hready h1 h2 hrec]
  by_cases hv : version = p_md.version_number
  · rw [if_pos hv]
    split <;> simp [hv]
  · rw [if_neg hv]
    by_cases hi : md_initialized p_md = false
    · simp [hi, hv]
    · rw [if_neg hi]
      split <;> simp [hi]

/-- C2 (amended) exercised: a zeroed record and incoming version 3. -/
theorem compare_new_iff_witness :
    vh_compare_metadata ex_env (ex_state [metadata_zero]) 1 3 5 false =
      some VH_DATA_STATUS_NEW :=
  (compare_new_iff ex_env (ex_state [metadata_zero]) 1 3 5 false metadata_zero
    (by decide) (by decide) (by decide) rfl).2 (by decide)

/-- C3, as stated, fails: stored 65535 and incoming 32800 on an INITIALIZED
record are classified UPDATED although `(32800 - 65535) mod 2^16 = 32801` is
not below 32667. -/
theorem compare_updated_spec_counterexample :
    vh_ready (ex_state [ex_record 65535 2 0]) ∧
    md_initialized (ex_record 65535 2 0) = true ∧
    vh_compare_metadata ex_env (ex_state [ex_record 65535 2 0]) 1 32800 0 false =
      some VH_DATA_STATUS_UPDATED ∧
    ¬ spec_updated_condition 65535 32800 := by
  decide

/-- C3 (amended): for an INITIALIZED record with stored version `s` and an
incoming version `v ≠ s` (both 16-bit), the classification is UPDATED exactly
when `s < 200 ∧ v > s`, or both are at least 200 and the separation, which is
`v - s` for `v > s` and `(v - s - 200) mod 2^16 = v + 65336 - s` for `v < s`,
is below 32667; it is OLD in every other case. -/
theorem compare_updated_iff (env : vh_env) (st : vh_state) (handle v crc : Nat)
    (origin_is_me : Bool) (p_md : metadata_t)
    (hready : vh_ready st) (h1 : 1 ≤ handle) (h2 : handle ≤ st.g_md_set.handle_count)
    (hrec : st.g_md_set.md[handle - 1]? = some p_md)
    (hinit : md_initialized p_md = true)
    (hs16 : p_md.version_number < 65536) (hv16 : v < 65536)
    (hne : p_md.version_number ≠ v) :
    (vh_compare_metadata env st handle v crc origin_is_me = some VH_DATA_STATUS_UPDATED ↔
      ((p_md.version_number < 200 ∧ v > p_md.version_number) ∨
       (p_md.version_number ≥ 200 ∧ v ≥ 200 ∧
         ((p_md.version_number < v ∧ v - p_md.version_number < 32667) ∨
          (v < p_md.version_number ∧ v + 65336 - p_md.version_number < 32667))))) ∧
    (vh_compare_metadata env st handle v crc origin_is_me = some VH_DATA_STATUS_OLD ↔
      ¬ ((p_md.version_number < 200 ∧ v > p_md.version_number) ∨
         (p_md.version_number ≥ 200 ∧ v ≥ 200 ∧
           ((p_md.version_number < v ∧ v - p_md.version_number < 32667) ∨
            (v < p_md.version_number ∧ v + 65336 - p_md.version_number < 32667))))) := by
  rw [vh_compare_metadata_at env st handle v crc origin_is_me p_md hready h1 h2 hrec]
  rw [if_neg (fun h => hne h.symm), if_neg (by simp [hinit])]
  have hsep : (p_md.version_number ≥ 200 ∧ v ≥ 200 ∧
        separation v p_md.version_number < 32667) ↔
      (p_md.version_number ≥ 200 ∧ v ≥ 200 ∧
         ((p_md.version_number < v ∧ v - p_md.version_number < 32667) ∨
          (v < p_md.version_number ∧ v + 65336 - p_md.version_number < 32667))) := by
    constructor
    · rintro ⟨hs, hv, hlt⟩
      refine ⟨hs, hv, ?_⟩
      rcases Nat.lt_or_ge v p_md.version_number with hlt2 | hge
      · rw [separation_lt v _ hlt2 hs16 hv] at hlt
        exact Or.inr ⟨hlt2, hlt⟩
      · rw [separation_ge v _ hge hv16] at hlt
        exact Or.inl ⟨by omega, hlt⟩
    · rintro ⟨hs, hv, hcase⟩
      refine ⟨hs, hv, ?_⟩
      rcases hcase with ⟨hlt2, hlt⟩ | ⟨hlt2, hlt⟩
      · rw [separation_ge v _ (Nat.le_of_lt hlt2) hv16]
        exact hlt
      · rw [separation_lt v _ hlt2 hs16 hv]
        exact hlt
  by_cases hc : (p_md.version_number < 200 ∧ v > p_md.version_number) ∨
      (p_md.version_number ≥ 200 ∧ v ≥ 200 ∧ separation v p_md.version_number < 32667)
  · rw [if_pos hc]
    have hc2 := (or_congr Iff.rfl hsep).mp hc
    simp [hc2]
  · rw [if_neg hc]
    have hc2 : ¬ ((p_md.version_number < 200 ∧ v > p_md.version_number) ∨
         (p_md.version_number ≥ 200 ∧ v ≥ 200 ∧
           ((p_md.version_number < v ∧ v - p_md.version_number < 32667) ∨
            (v < p_md.version_number ∧ v + 65336 - p_md.version_number < 32667)))) :=
      fun h => hc ((or_congr Iff.rfl hsep).mpr h)
    exact ⟨⟨fun h => by simp at h, fun h => absurd h hc2⟩, ⟨fun _ => hc2, fun _ => rfl⟩⟩

/-- C3 (amended) exercised at the input on which the stated form fails:
stored 65535, incoming 32800. -/
theorem compare_updated_iff_witness :
    vh_compare_metadata ex_env (ex_state [ex_record 65535 2 0]) 1 32800 0 false =
      some VH_DATA_STATUS_UPDATED :=
  (compare_updated_iff ex_env (ex_state [ex_record 65535 2 0]) 1 32800 0 false
    (ex_record 65535 2 0) (by decide) (by decide) (by decide) rfl (by decide)
    (by decide) (by decide) (by decide)).1.2 (by decide)

/-- C4: on an INITIALIZED record, for versions `a < b` both below the ceiling
200, incoming `b` against stored `a` is UPDATED and incoming `a` against
stored `b` is OLD. -/
theorem compare_below_ceiling (env : vh_env) (st : vh_state) (handle a b crc : Nat)
    (origin_is_me : Bool) (p_md : metadata_t)
    (hready : vh_ready st) (h1 : 1 ≤ handle) (h2 : handle ≤ st.g_md_set.handle_count)
    (hrec : st.g_md_set.md[handle - 1]? = some p_md)
    (hinit : md_initialized p_md = true)
    (hab : a < b) (hb : b < 200) :
    (p_md.version_number = a →
      vh_compare_metadata env st handle b crc origin_is_me = some VH_DATA_STATUS_UPDATED) ∧
    (p_md.version_number = b →
      vh_compare_metadata env st handle a crc origin_is_me = some VH_DATA_STATUS_OLD) := by
  rw [vh_compare_metadata_at env st handle b crc origin_is_me p_md hready h1 h2 hrec,
    vh_compare_metadata_at env st handle a crc origin_is_me p_md hready h1 h2 hrec]
  constructor
  · intro hs
    rw [if_neg (by omega), if_neg (by simp [hinit]), if_pos (Or.inl ⟨by omega, by omega⟩)]
  · intro hs
    rw [if_neg (by omega), if_neg (by simp [hinit]), if_neg (by omega)]

/-- C4 exercised at a = 5, b = 40: incoming 40 against stored 5 is UPDATED. -/
theorem compare_below_ceiling_witness :
    vh_compare_metadata ex_env (ex_state [ex_record 5 2 0]) 1 40 0 false =
      some VH_DATA_STATUS_UPDATED :=
  (compare_below_ceiling ex_env (ex_state [ex_record 5 2 0]) 1 5 40 0 false
    (ex_record 5 2 0) (by decide) (by decide) (by decide) rfl (by decide)
    (by decide) (by decide)).1 rfl

/-- C5: on an INITIALIZED record, for versions `s < v` both at or above the
ceiling 200 with `v - s < 32667`, incoming `v` against stored `s` is UPDATED
and incoming `s` against stored `v` is OLD. -/
theorem compare_above_ceiling (env : vh_env) (st : vh_state) (handle s v crc : Nat)
    (origin_is_me : Bool) (p_md : metadata_t)
    (hready : vh_ready st) (h1 : 1 ≤ handle) (h2 : handle ≤ st.g_md_set.handle_count)
    (hrec : st.g_md_set.md[handle - 1]? = some p_md)
    (hinit : md_initialized p_md = true)
    (hsv : s < v) (hs : 200 ≤ s) (hv16 : v < 65536) (hd : v - s < 32667) :
    (p_md.version_number = s →
      vh_compare_metadata env st handle v crc origin_is_me = some VH_DATA_STATUS_UPDATED) ∧
    (p_md.version_number = v →
      vh_compare_metadata env st handle s crc origin_is_me = some VH_DATA_STATUS_OLD) := by
  rw [vh_compare_metadata_at env st handle v crc origin_is_me p_md hready h1 h2 hrec,
    vh_compare_metadata_at env st handle s crc origin_is_me p_md hready h1 h2 hrec]
  constructor
  · intro hst
    have hsep : separation v p_md.version_number = v - p_md.version_number :=
      separation_ge v _ (by omega) hv16
    rw [if_neg (by omega), if_neg (by simp [hinit]),
      if_pos (Or.inr ⟨by omega, by omega, by omega⟩)]
  · intro hst
    have hsep : separation s p_md.version_number = s + 65336 - p_md.version_number :=
      separation_lt s _ (by omega) (by omega) hs
    rw [if_neg (by omega), if_neg (by simp [hinit]), if_neg (by omega)]

/-- C5 exercised at s = 65500, v = 65530: incoming 65500 against stored 65530
is OLD. -/
theorem compare_above_ceiling_witness :
    vh_compare_metadata ex_env (ex_state [ex_record 65530 2 0]) 1 65500 0 false =
      some VH_DATA_STATUS_OLD :=
  (compare_above_ceiling ex_env (ex_state [ex_record 65530 2 0]) 1 65500 65530 0 false
    (ex_record 65530 2 0) (by decide) (by decide) (by decide) rfl (by decide)
    (by decide) (by decide) (by decide) (by decide)).2 rfl

/-! ## Flags -/

theorem flag_is_set_eq_testBit (flags pos : Nat) :
    flag_is_set flags pos = flags.testBit pos := by
  unfold flag_is_set
  rw [Nat.one_shiftLeft, Nat.and_two_pow]
  cases h : flags.testBit pos
  · simp
  · simp

theorem flag_is_set_or_mod (flags mask pos : Nat) (hpos : pos < 8) :
    flag_is_set ((flags ||| mask) % 256) pos =
      (flag_is_set flags pos || flag_is_set mask pos) := by
  have h256 : (256 : Nat) = 2 ^ 8 := by norm_num
  rw [flag_is_set_eq_testBit, flag_is_set_eq_testBit, flag_is_set_eq_testBit, h256,
    Nat.testBit_mod_two_pow, Nat.testBit_or]
  simp [hpos]

/-! ## Local update -/

theorem version_increase_eq_spec (v : Nat) (hv : v < 65536) :
    version_increase v = spec_lollipop_next v := by
  unfold version_increase spec_lollipop_next UINT16_MAX MESH_VALUE_LOLLIPOP_LIMIT
  split
  · rfl
  · omega

theorem spec_lollipop_next_lt (v : Nat) (hv : v < 65536) : spec_lollipop_next v < 65536 := by
  unfold spec_lollipop_next
  split <;> omega

theorem spec_lollipop_iterate_lt (v : Nat) (hv : v < 65536) (k : Nat) :
    spec_lollipop_next^[k] v < 65536 := by
  induction k with
  | zero => simpa using hv
  | succ k ih =>
    rw [Function.iterate_succ_apply']
    exact spec_lollipop_next_lt _ ih

theorem vh_local_update_at (env : vh_env) (st : vh_state) (handle : Nat) (p_md : metadata_t)
    (hready : vh_ready st) (h1 : 1 ≤ handle) (h2 : handle ≤ st.g_md_set.handle_count)
    (hrec : st.g_md_set.md[handle - 1]? = some p_md) :
    ∃ st1 status p1,
      vh_local_update env st handle = some (st1, status) ∧
      vh_ready st1 ∧
      st1.g_md_set.handle_count = st.g_md_set.handle_count ∧
      st1.g_md_set.md = st.g_md_set.md.set (handle - 1) p1 ∧
      st1.g_md_set.md[handle - 1]? = some p1 ∧
      p1.version_number = version_increase p_md.version_number ∧
      p1.crc = 0xFFFFFFFF ∧
      p1.last_sender_addr = env.my_addr ∧
      md_initialized p1 = true := by
  have hinit : st.g_is_initialized = true := hready.1
  have hlen : st.g_md_set.md.length = st.g_md_set.handle_count := hready.2
  have hrange : ¬ (handle > st.g_md_set.handle_count ∨ handle = 0) := by omega
  unfold vh_local_update
  rw [if_neg (by simp [hinit]), if_neg hrange, hrec]
  refine ⟨_, _, _, rfl, ?_, rfl, rfl, ?_, rfl, rfl, rfl, ?_⟩
  · exact ⟨by simp [vh_order_update, md_store, hinit],
      by simp [vh_order_update, md_store, hlen]⟩
  · simp only [vh_order_update, md_store]
    exact List.getElem?_set_self (by omega)
  · simp only [md_initialized]
    rw [flag_is_set_or_mod _ _ _ (by decide)]
    simp [flag_is_set, MESH_MD_FLAGS_INITIALIZED_POS, MESH_MD_FLAGS_USED_POS]

theorem vh_local_update_n_inv (env : Nat → vh_env) (st : vh_state) (handle : Nat)
    (p_md : metadata_t)
    (hready : vh_ready st) (h1 : 1 ≤ handle) (h2 : handle ≤ st.g_md_set.handle_count)
    (hrec : st.g_md_set.md[handle - 1]? = some p_md)
    (hv16 : p_md.version_number < 65536) (k : Nat) :
    ∃ st1 p1,
      vh_local_update_n env st handle k = some st1 ∧
      vh_ready st1 ∧
      st1.g_md_set.handle_count = st.g_md_set.handle_count ∧
      st1.g_md_set.md[handle - 1]? = some p1 ∧
      p1.version_number = spec_lollipop_next^[k] p_md.version_number := by
  induction k with
  | zero => exact ⟨st, p_md, rfl, hready, rfl, hrec, rfl⟩
  | succ k ih =>
    obtain ⟨st1, p1, hrun, hready1, hcount1, hrec1, hver1⟩ := ih
    obtain ⟨st2, status, p2, hstep, hready2, hcount2, -, hrec2, hver2, -, -, -⟩ :=
      vh_local_update_at (env k) st1 handle p1 hready1 h1 (by omega) hrec1
    refine ⟨st2, p2, ?_, hready2, by omega, hrec2, ?_⟩
    · simp only [vh_local_update_n, hrun, hstep]
    · rw [hver2, Function.iterate_succ_apply', ← hver1]
      exact version_increase_eq_spec _
        (by rw [hver1]; exact spec_lollipop_iterate_lt _ hv16 k)

/-- C6: on an initialized engine and a handle in range, `k` consecutive calls
of `vh_local_update` all return and leave the record's version at `f^k` of the
prior (16-bit) version, with `f v = 200` for `v = 65535` and `f v = v + 1`
otherwise; the next call moves the version down exactly when it was 65535,
then to 200, and never to 0. -/
theorem local_update_version_closed_form (env : Nat → vh_env) (st : vh_state)
    (handle : Nat) (p_md : metadata_t) (k : Nat)
    (hready : vh_ready st) (h1 : 1 ≤ handle) (h2 : handle ≤ st.g_md_set.handle_count)
    (hrec : st.g_md_set.md[handle - 1]? = some p_md)
    (hv16 : p_md.version_number < 65536) :
    ∃ st1 p1 st2 p2,
      vh_local_update_n env st handle k = some st1 ∧
      st1.g_md_set.md[handle - 1]? = some p1 ∧
      p1.version_number = spec_lollipop_next^[k] p_md.version_number ∧
      vh_local_update_n env st handle (k + 1) = some st2 ∧
      st2.g_md_set.md[handle - 1]? = some p2 ∧
      p2.version_number = spec_lollipop_next p1.version_number ∧
      p2.version_number ≠ 0 ∧
      (p2.version_number < p1.version_number ↔ p1.version_number = 65535) ∧
      (p1.version_number = 65535 → p2.version_number = 200) := by
  obtain ⟨st1, p1, hrun, hready1, hcount1, hrec1, hver1⟩ :=
    vh_local_update_n_inv env st handle p_md hready h1 h2 hrec hv16 k
  obtain ⟨st2, status, p2, hstep, -, -, -, hrec2, hver2, -, -, -⟩ :=
    vh_local_update_at (env k) st1 handle p1 hready1 h1 (by omega) hrec1
  have hp1 : p1.version_number < 65536 := by
    rw [hver1]
    exact spec_lollipop_iterate_lt _ hv16 k
  have hnext : p2.version_number = spec_lollipop_next p1.version_number := by
    rw [hver2]
    exact version_increase_eq_spec _ hp1
  refine ⟨st1, p1, st2, p2, hrun, hrec1, hver1, ?_, hrec2, hnext, ?_, ?_, ?_⟩
  · simp only [vh_local_update_n, hrun, hstep]
  · rw [hnext]
    unfold spec_lollipop_next
    split <;> omega
  · rw [hnext]
    unfold spec_lollipop_next
    split <;> omega
  · intro h
    rw [hnext]
    unfold spec_lollipop_next
    rw [if_pos h]

/-- C6 exercised: from version 65534, two updates of handle 1 are carried out
and a third leaves the version at 201. -/
theorem local_update_version_closed_form_witness :
    ∃ st1 p1 st2 p2,
      vh_local_update_n (fun _ => ex_env) (ex_state [ex_record 65534 3 0]) 1 2 = some st1 ∧
      st1.g_md_set.md[1 - 1]? = some p1 ∧
      p1.version_number = spec_lollipop_next^[2] (ex_record 65534 3 0).version_number ∧
      vh_local_update_n (fun _ => ex_env) (ex_state [ex_record 65534 3 0]) 1 (2 + 1) =
        some st2 ∧
      st2.g_md_set.md[1 - 1]? = some p2 ∧
      p2.version_number = spec_lollipop_next p1.version_number ∧
      p2.version_number ≠ 0 ∧
      (p2.version_number < p1.version_number ↔ p1.version_number = 65535) ∧
      (p1.version_number = 65535 → p2.version_number = 200) :=
  local_update_version_closed_form (fun _ => ex_env) (ex_state [ex_record 65534 3 0]) 1
    (ex_record 65534 3 0) 2 (by decide) (by decide) (by decide) rfl (by decide)

/-- C7: on an initialized engine and a handle in range, `vh_local_update`
returns, and comparing the record's new version with checksum 0xFFFFFFFF and
`origin_is_me = true` right afterwards gives SAME. -/
theorem local_update_then_compare_same (env env2 : vh_env) (st : vh_state) (handle : Nat)
    (hready : vh_ready st) (h1 : 1 ≤ handle) (h2 : handle ≤ st.g_md_set.handle_count) :
    ∃ st1 status p1,
      vh_local_update env st handle = some (st1, status) ∧
      st1.g_md_set.md[handle - 1]? = some p1 ∧
      vh_compare_metadata env2 st1 handle p1.version_number 0xFFFFFFFF true =
        some VH_DATA_STATUS_SAME := by
  have hlen : st.g_md_set.md.length = st.g_md_set.handle_count := hready.2
  have hlt : handle - 1 < st.g_md_set.md.length := by omega
  obtain ⟨st1, status, p1, hstep, hready1, hcount1, -, hrec1, -, hcrc, -, -⟩ :=
    vh_local_update_at env st handle st.g_md_set.md[handle - 1] hready h1 h2
      (List.getElem?_eq_getElem hlt)
  refine ⟨st1, status, p1, hstep, hrec1, ?_⟩
  rw [vh_compare_metadata_at env2 st1 handle _ _ true p1 hready1 h1 (by omega) hrec1]
  simp [hcrc]

/-- C7 exercised on a zeroed one-record engine. -/
theorem local_update_then_compare_same_witness :
    ∃ st1 status p1,
      vh_local_update ex_env (ex_state [metadata_zero]) 1 = some (st1, status) ∧
      st1.g_md_set.md[1 - 1]? = some p1 ∧
      vh_compare_metadata ex_env st1 1 p1.version_number 0xFFFFFFFF true =
        some VH_DATA_STATUS_SAME :=
  local_update_then_compare_same ex_env ex_env (ex_state [metadata_zero]) 1
    (by decide) (by decide) (by decide)

/-! ## Registration of a reception -/

theorem md_store_ready (st : vh_state) (handle : Nat) (q : metadata_t) (hready : vh_ready st) :
    vh_ready (md_store st handle q) :=
  ⟨hready.1, by simp [md_store, hready.2]⟩

theorem md_store_get (st : vh_state) (handle : Nat) (q : metadata_t)
    (hlt : handle - 1 < st.g_md_set.md.length) :
    (md_store st handle q).g_md_set.md[handle - 1]? = some q := by
  simp only [md_store]
  exact List.getElem?_set_self hlt

theorem md_content_store (st : vh_state) (handle : Nat) (p_md q : metadata_t)
    (hrec : st.g_md_set.md[handle - 1]? = some p_md)
    (hver : q.version_number = p_md.version_number) (hcrc : q.crc = p_md.crc)
    (haddr : q.last_sender_addr = p_md.last_sender_addr) :
    md_content (md_store st handle q) = md_content st := by
  unfold md_content md_store
  simp only [List.map_set]
  apply List.ext_getElem?
  intro n
  rw [List.getElem?_set']
  by_cases hn : handle - 1 = n
  · subst hn
    simp [hrec, hver, hcrc, haddr]
  · rw [if_neg hn]

/-- C8: on an initialized engine and a handle in range, `vh_rx_register` with
status NEW or UPDATED returns NRF_SUCCESS and leaves the record with the
incoming version, checksum and origin and with INITIALIZED set, so that a
comparison with the same version and checksum right afterwards gives SAME. -/
theorem rx_register_new_updated_adopts (env env2 : vh_env) (st : vh_state)
    (status : vh_data_status_t) (handle version crc : Nat) (origin : ble_gap_addr_t)
    (timestamp : Nat) (origin_is_me : Bool)
    (hready : vh_ready st) (h1 : 1 ≤ handle) (h2 : handle ≤ st.g_md_set.handle_count)
    (hstatus : status = VH_DATA_STATUS_NEW ∨ status = VH_DATA_STATUS_UPDATED) :
    ∃ st1 p1,
      vh_rx_register env st status handle version crc origin timestamp =
        some (st1, NRF_SUCCESS) ∧
      st1.g_md_set.md[handle - 1]? = some p1 ∧
      p1.version_number = version ∧ p1.crc = crc ∧ p1.last_sender_addr = origin ∧
      md_initialized p1 = true ∧
      vh_compare_metadata env2 st1 handle version crc origin_is_me =
        some VH_DATA_STATUS_SAME := by
  have hinit : st.g_is_initialized = true := hready.1
  have hlen : st.g_md_set.md.length = st.g_md_set.handle_count := hready.2
  have hlt : handle - 1 < st.g_md_set.md.length := by omega
  have hrange : ¬ (handle > st.g_md_set.handle_count ∨ handle = 0) := by omega
  have hrec : st.g_md_set.md[handle - 1]? = some st.g_md_set.md[handle - 1] :=
    List.getElem?_eq_getElem hlt
  have hflag : ∀ q : metadata_t,
      md_initialized (rx_mark_inconsistent env q timestamp) = true := by
    intro q
    simp only [md_initialized, rx_mark_inconsistent]
    rw [flag_is_set_or_mod _ _ _ (by decide)]
    simp [flag_is_set, MESH_MD_FLAGS_INITIALIZED_POS]
  have hcmp : ∀ st1 : vh_state, vh_ready st1 →
      st1.g_md_set.handle_count = st.g_md_set.handle_count →
      st1.g_md_set.md[handle - 1]? = some (rx_mark_inconsistent env
        (rx_adopt st.g_md_set.md[handle - 1] version crc origin) timestamp) →
      vh_compare_metadata env2 st1 handle version crc origin_is_me =
        some VH_DATA_STATUS_SAME := by
    intro st1 hready1 hcount1 hrec1
    rw [vh_compare_metadata_at env2 st1 handle version crc origin_is_me _ hready1 h1
      (by omega) hrec1]
    simp [rx_mark_inconsistent, rx_adopt]
  unfold vh_rx_register
  rw [if_neg (by simp [hinit]), if_neg hrange, hrec]
  rcases hstatus with hs | hs
  · subst hs
    have hready1 : vh_ready (vh_order_update env st timestamp).1 := ⟨hinit, hlen⟩
    have hget := md_store_get (vh_order_update env st timestamp).1 handle
      (rx_mark_inconsistent env (rx_adopt st.g_md_set.md[handle - 1] version crc origin)
        timestamp) hlt
    exact ⟨_, _, rfl, hget, rfl, rfl, rfl, hflag _,
      hcmp _ (md_store_ready _ handle _ hready1) rfl hget⟩
  · subst hs
    have hget := md_store_get st handle
      (rx_mark_inconsistent env (rx_adopt st.g_md_set.md[handle - 1] version crc origin)
        timestamp) hlt
    exact ⟨_, _, rfl, hget, rfl, rfl, rfl, hflag _,
      hcmp _ (md_store_ready _ handle _ hready) rfl hget⟩

/-- C8 exercised: a NEW reception of version 9, checksum 77 from a peer on a
zeroed record. -/
theorem rx_register_new_updated_adopts_witness :
    ∃ st1 p1,
      vh_rx_register ex_env (ex_state [metadata_zero]) VH_DATA_STATUS_NEW 1 9 77
        ex_peer_addr 20 = some (st1, NRF_SUCCESS) ∧
      st1.g_md_set.md[1 - 1]? = some p1 ∧
      p1.version_number = 9 ∧ p1.crc = 77 ∧ p1.last_sender_addr = ex_peer_addr ∧
      md_initialized p1 = true ∧
      vh_compare_metadata ex_env st1 1 9 77 false = some VH_DATA_STATUS_SAME :=
  rx_register_new_updated_adopts ex_env ex_env (ex_state [metadata_zero])
    VH_DATA_STATUS_NEW 1 9 77 ex_peer_addr 20 false (by decide) (by decide) (by decide)
    (Or.inl rfl)

/-- C9: on an initialized engine and a handle in range, `vh_rx_register` with
status OLD or CONFLICTING returns and leaves the version, checksum and last
origin address of every record as they were, for any incoming version,
checksum and origin. -/
theorem rx_register_old_conflicting_frame (env : vh_env) (st : vh_state)
    (status : vh_data_status_t) (handle version crc : Nat) (origin : ble_gap_addr_t)
    (timestamp : Nat)
    (hready : vh_ready st) (h1 : 1 ≤ handle) (h2 : handle ≤ st.g_md_set.handle_count)
    (hstatus : status = VH_DATA_STATUS_OLD ∨ status = VH_DATA_STATUS_CONFLICTING) :
    ∃ st1,
      vh_rx_register env st status handle version crc origin timestamp =
        some (st1, NRF_SUCCESS) ∧
      md_content st1 = md_content st := by
  have hinit : st.g_is_initialized = true := hready.1
  have hlen : st.g_md_set.md.length = st.g_md_set.handle_count := hready.2
  have hlt : handle - 1 < st.g_md_set.md.length := by omega
  have hrange : ¬ (handle > st.g_md_set.handle_count ∨ handle = 0) := by omega
  have hrec : st.g_md_set.md[handle - 1]? = some st.g_md_set.md[handle - 1] :=
    List.getElem?_eq_getElem hlt
  have hsame := md_content_store st handle st.g_md_set.md[handle - 1]
    (rx_mark_inconsistent env st.g_md_set.md[handle - 1] timestamp) hrec rfl rfl rfl
  unfold vh_rx_register
  rw [if_neg (by simp [hinit]), if_neg hrange, hrec]
  rcases hstatus with hs | hs
  · subst hs
    exact ⟨_, rfl, hsame⟩
  · subst hs
    exact ⟨_, rfl, hsame⟩

/-- C9 exercised: a CONFLICTING reception on handle 2 of a two-record engine. -/
theorem rx_register_old_conflicting_frame_witness :
    ∃ st1,
      vh_rx_register ex_env (ex_state [ex_record 7 3 11, ex_record 300 3 12])
        VH_DATA_STATUS_CONFLICTING 2 300 99 ex_my_addr 20 = some (st1, NRF_SUCCESS) ∧
      md_content st1 = md_content (ex_state [ex_record 7 3 11, ex_record 300 3 12]) :=
  rx_register_old_conflicting_frame ex_env (ex_state [ex_record 7 3 11, ex_record 300 3 12])
    VH_DATA_STATUS_CONFLICTING 2 300 99 ex_my_addr 20 (by decide) (by decide) (by decide)
    (Or.inr rfl)

/-! ## Initialization -/

theorem vh_init_success_ready (env : vh_env) (st : vh_state)
    (handle_count min_interval_us : Nat)
    (h : (vh_init env st handle_count min_interval_us).2 = NRF_SUCCESS) :
    vh_ready (vh_init env st handle_count min_interval_us).1 := by
  unfold vh_init at h ⊢
  by_cases hc : handle_count = 0 ∨ handle_count > env.MAX_VALUE_COUNT
  · simp [hc] at h
  · by_cases ha : env.calloc_ok = false
    · simp [hc, ha] at h
    · simp [hc, ha, vh_ready]

theorem vh_rx_register_count (env : vh_env) (st : vh_state) (status : vh_data_status_t)
    (handle version crc : Nat) (origin : ble_gap_addr_t) (timestamp : Nat)
    (st1 : vh_state) (r : nrf_error_t)
    (h : vh_rx_register env st status handle version crc origin timestamp = some (st1, r)) :
    st1.g_md_set.handle_count = st.g_md_set.handle_count := by
  unfold vh_rx_register at h
  split at h
  · cases h; rfl
  · split at h
    · cases h; rfl
    · split at h
      · cases h
      · cases status <;> cases h <;> rfl

theorem vh_local_update_count (env : vh_env) (st : vh_state) (handle : Nat)
    (st1 : vh_state) (status : vh_data_status_t)
    (h : vh_local_update env st handle = some (st1, status)) :
    st1.g_md_set.handle_count = st.g_md_set.handle_count := by
  unfold vh_local_update at h
  split at h
  · cases h; rfl
  · split at h
    · cases h; rfl
    · split at h
      · cases h
      · cases h; rfl

theorem vh_value_enable_count (env : vh_env) (st : vh_state) (handle : Nat)
    (st1 : vh_state) (r : nrf_error_t)
    (h : vh_value_enable env st handle = some (st1, r)) :
    st1.g_md_set.handle_count = st.g_md_set.handle_count := by
  unfold vh_value_enable at h
  split at h
  · cases h; rfl
  · split at h
    · cases h; rfl
    · dsimp only at h
      split at h
      · cases h
      · cases h; rfl

theorem vh_value_disable_count (st : vh_state) (handle : Nat)
    (st1 : vh_state) (r : nrf_error_t)
    (h : vh_value_disable st handle = some (st1, r)) :
    st1.g_md_set.handle_count = st.g_md_set.handle_count := by
  unfold vh_value_disable at h
  split at h
  · cases h; rfl
  · split at h
    · cases h; rfl
    · split at h
      · cases h
      · cases h; rfl

theorem vh_set_gatts_handle_count (st : vh_state) (value_handle gatts_handle : Nat)
    (st1 : vh_state) (r : nrf_error_t)
    (h : vh_set_gatts_handle st value_handle gatts_handle = some (st1, r)) :
    st1.g_md_set.handle_count = st.g_md_set.handle_count := by
  unfold vh_set_gatts_handle at h
  split at h
  · cases h; rfl
  · split at h
    · cases h; rfl
    · split at h
      · cases h
      · cases h; rfl

theorem sweep_body_count (env : vh_env) (timestamp : Nat) (st st1 : vh_state) (b : Bool)
    (h : sweep_body env timestamp st = some (st1, b)) :
    st1.g_md_set.handle_count = st.g_md_set.handle_count := by
  unfold sweep_body at h
  dsimp only at h
  split at h
  · cases h
  · split at h
    · split at h
      · split at h
        · cases h; rfl
        · cases h; rfl
      · cases h; rfl
    · cases h; rfl

theorem sweep_loop_count (env : vh_env) (timestamp : Nat) (n : Nat) :
    ∀ st st1 : vh_state, sweep_loop env timestamp n st = some st1 →
      st1.g_md_set.handle_count = st.g_md_set.handle_count := by
  induction n with
  | zero =>
    intro st st1 h
    simp only [sweep_loop, Option.some.injEq] at h
    rw [h]
  | succ n ih =>
    intro st st1 h
    simp only [sweep_loop] at h
    cases hb : sweep_body env timestamp st with
    | none =>
      rw [hb] at h
      cases h
    | some r =>
      obtain ⟨st2, b⟩ := r
      have hc := sweep_body_count env timestamp st st2 b hb
      rw [hb] at h
      cases b with
      | true =>
        simp only [Option.some.injEq] at h
        rw [← h]
        exact hc
      | false =>
        simp only at h
        rw [ih st2 st1 h]
        exact hc

theorem order_next_transmission_count (env : vh_env) (st st1 : vh_state) (time_now : Nat)
    (h : order_next_transmission env st time_now = some st1) :
    st1.g_md_set.handle_count = st.g_md_set.handle_count := by
  unfold order_next_transmission at h
  dsimp only at h
  split at h
  · cases h
  · split at h
    · cases h; rfl
    · cases h; rfl

theorem transmit_all_instances_count (env : vh_env) (st st1 : vh_state) (timestamp : Nat)
    (h : transmit_all_instances env st timestamp = some st1) :
    st1.g_md_set.handle_count = st.g_md_set.handle_count := by
  unfold transmit_all_instances at h
  cases hl : sweep_loop env timestamp st.g_md_set.handle_count st with
  | none =>
    rw [hl] at h
    cases h
  | some st2 =>
    rw [hl] at h
    simp only at h
    rw [order_next_transmission_count env st2 st1 timestamp h]
    exact sweep_loop_count env timestamp _ st st2 hl

theorem vh_step_count (op : vh_op) (st st1 : vh_state) (h : vh_step op st = some st1) :
    st1.g_md_set.handle_count = st.g_md_set.handle_count := by
  cases op with
  | rx_register env status handle version crc origin timestamp =>
    simp only [vh_step, Option.map_eq_some'] at h
    obtain ⟨⟨st2, r⟩, hr, heq⟩ := h
    simp only at heq
    subst heq
    exact vh_rx_register_count env st status handle version crc origin timestamp _ r hr
  | local_update env handle =>
    simp only [vh_step, Option.map_eq_some'] at h
    obtain ⟨⟨st2, r⟩, hr, heq⟩ := h
    simp only at heq
    subst heq
    exact vh_local_update_count env st handle _ r hr
  | value_enable env handle =>
    simp only [vh_step, Option.map_eq_some'] at h
    obtain ⟨⟨st2, r⟩, hr, heq⟩ := h
    simp only at heq
    subst heq
    exact vh_value_enable_count env st handle _ r hr
  | value_disable handle =>
    simp only [vh_step, Option.map_eq_some'] at h
    obtain ⟨⟨st2, r⟩, hr, heq⟩ := h
    simp only at heq
    subst heq
    exact vh_value_disable_count st handle _ r hr
  | set_gatts_handle value_handle gatts_handle =>
    simp only [vh_step, Option.map_eq_some'] at h
    obtain ⟨⟨st2, r⟩, hr, heq⟩ := h
    simp only at heq
    subst heq
    exact vh_set_gatts_handle_count st value_handle gatts_handle _ r hr
  | sweep env timestamp =>
    exact transmit_all_instances_count env st st1 timestamp h

theorem vh_run_count (ops : List vh_op) :
    ∀ st st1 : vh_state, vh_run ops st = some st1 →
      st1.g_md_set.handle_count = st.g_md_set.handle_count := by
  induction ops with
  | nil =>
    intro st st1 h
    simp only [vh_run, Option.some.injEq] at h
    rw [h]
  | cons op ops ih =>
    intro st st1 h
    simp only [vh_run] at h
    cases hs : vh_step op st with
    | none =>
      rw [hs] at h
      cases h
    | some st2 =>
      rw [hs] at h
      simp only at h
      rw [ih st2 st1 h]
      exact vh_step_count op st st2 hs

/-- C10, as stated, fails: `vh_init` has no guard on `g_is_initialized`. On an
initialized engine with one record, `vh_init` with handle count 2 returns
NRF_SUCCESS, sets `handle_count` to 2 and replaces the array. -/
theorem vh_init_reinit_counterexample :
    (ex_state [ex_record 7 3 11]).g_is_initialized = true ∧
    (ex_state [ex_record 7 3 11]).g_md_set.handle_count = 1 ∧
    (vh_init ex_env (ex_state [ex_record 7 3 11]) 2 100).2 = NRF_SUCCESS ∧
    (vh_init ex_env (ex_state [ex_record 7 3 11]) 2 100).1.g_md_set.handle_count = 2 ∧
    (vh_init ex_env (ex_state [ex_record 7 3 11]) 2 100).1.g_md_set.md =
      [metadata_zero, metadata_zero] ∧
    (vh_init ex_env (ex_state [ex_record 7 3 11]) 2 100).1.g_md_set ≠
      (ex_state [ex_record 7 3 11]).g_md_set := by
  decide

/-- C10 (amended): `vh_init` rejects a handle count of 0 or above
MAX_VALUE_COUNT with NRF_ERROR_INVALID_PARAM and then leaves the whole state
unchanged; every call that returns an error leaves `handle_count` and
`g_is_initialized` unchanged; a call with a count in [1, MAX_VALUE_COUNT] and a
successful allocation returns NRF_SUCCESS, also on an initialized engine, and
installs that many zeroed records and the new `handle_count`. No other
operation changes `handle_count`: not `vh_rx_register`, `vh_local_update`,
`vh_value_enable`, `vh_value_disable`, `vh_set_gatts_handle`, a sweep or
`vh_order_update`, alone or in any sequence, whatever they return. -/
theorem vh_init_outcomes (env : vh_env) (st : vh_state) (handle_count min_interval_us : Nat) :
    ((handle_count = 0 ∨ handle_count > env.MAX_VALUE_COUNT) →
      vh_init env st handle_count min_interval_us = (st, NRF_ERROR_INVALID_PARAM)) ∧
    ((vh_init env st handle_count min_interval_us).2 ≠ NRF_SUCCESS →
      (vh_init env st handle_count min_interval_us).1.g_md_set.handle_count =
        st.g_md_set.handle_count ∧
      (vh_init env st handle_count min_interval_us).1.g_is_initialized =
        st.g_is_initialized) ∧
    (1 ≤ handle_count → handle_count ≤ env.MAX_VALUE_COUNT → env.calloc_ok = true →
      (vh_init env st handle_count min_interval_us).2 = NRF_SUCCESS ∧
      (vh_init env st handle_count min_interval_us).1.g_is_initialized = true ∧
      (vh_init env st handle_count min_interval_us).1.g_md_set.handle_count = handle_count ∧
      (vh_init env st handle_count min_interval_us).1.g_md_set.md =
        List.replicate handle_count metadata_zero) ∧
    (∀ status handle version crc origin timestamp st1 r,
      vh_rx_register env st status handle version crc origin timestamp = some (st1, r) →
      st1.g_md_set.handle_count = st.g_md_set.handle_count) ∧
    (∀ handle st1 status,
      vh_local_update env st handle = some (st1, status) →
      st1.g_md_set.handle_count = st.g_md_set.handle_count) ∧
    (∀ (op : vh_op) (st1 : vh_state), vh_step op st = some st1 →
      st1.g_md_set.handle_count = st.g_md_set.handle_count) ∧
    (∀ (ops : List vh_op) (st1 : vh_state), vh_run ops st = some st1 →
      st1.g_md_set.handle_count = st.g_md_set.handle_count) ∧
    (∀ (env1 : vh_env) (time_now : Nat),
      (vh_order_update env1 st time_now).1.g_md_set.handle_count =
        st.g_md_set.handle_count) := by
  refine ⟨?_, ?_, ?_, ?_, ?_, fun op st1 h => vh_step_count op st st1 h,
    fun ops st1 h => vh_run_count ops st st1 h, fun _ _ => rfl⟩
  · intro h
    unfold vh_init
    rw [if_pos h]
  · intro h
    unfold vh_init at h ⊢
    by_cases hc : handle_count = 0 ∨ handle_count > env.MAX_VALUE_COUNT
    · simp [hc]
    · by_cases ha : env.calloc_ok = false
      · simp [hc, ha]
      · simp [hc, ha] at h
  · intro hpos hmax halloc
    have hc : ¬ (handle_count = 0 ∨ handle_count > env.MAX_VALUE_COUNT) := by omega
    unfold vh_init
    rw [if_neg hc, if_neg (by simp [halloc])]
    exact ⟨rfl, rfl, rfl, rfl⟩
  · intro status handle version crc origin timestamp st1 r h
    unfold vh_rx_register at h
    split at h
    · cases h; rfl
    · split at h
      · cases h; rfl
      · split at h
        · cases h
        · cases status <;> cases h <;> rfl
  · intro handle st1 status h
    unfold vh_local_update at h
    split at h
    · cases h; rfl
    · split at h
      · cases h; rfl
      · split at h
        · cases h
        · cases h; rfl

/-- C10 (amended) exercised: re-initialising a one-record engine with count 2
succeeds. -/
theorem vh_init_outcomes_witness :
    (vh_init ex_env (ex_state [ex_record 7 3 11]) 2 100).2 = NRF_SUCCESS ∧
    (vh_init ex_env (ex_state [ex_record 7 3 11]) 2 100).1.g_is_initialized = true ∧
    (vh_init ex_env (ex_state [ex_record 7 3 11]) 2 100).1.g_md_set.handle_count = 2 ∧
    (vh_init ex_env (ex_state [ex_record 7 3 11]) 2 100).1.g_md_set.md =
      List.replicate 2 metadata_zero :=
  (vh_init_outcomes ex_env (ex_state [ex_record 7 3 11]) 2 100).2.2.1
    (by decide) (by decide) rfl

/-! ## Disable and the handle checks -/

/-- C11 at the failing input: on an initialized engine whose only record is
USED, `vh_value_disable` with handle 1 = `handle_count` is rejected with
NRF_ERROR_INVALID_ADDR and the record keeps its USED flag. -/
theorem vh_value_disable_last_handle_rejected :
    vh_ready (ex_state [ex_record 7 3 11]) ∧
    (ex_state [ex_record 7 3 11]).g_md_set.handle_count = 1 ∧
    md_used (ex_record 7 3 11) = true ∧
    vh_value_disable (ex_state [ex_record 7 3 11]) 1 =
      some (ex_state [ex_record 7 3 11], NRF_ERROR_INVALID_ADDR) := by
  decide

/-- C12 at the failing input: on an initialized engine with one record,
`vh_get_origin_addr` with handle 1 passes the range check and then reads
`md[1]`, outside the array; with two records it returns for handle 1 the
origin stored for handle 2, while `vh_get_gatts_handle` reads `md[0]`. -/
theorem vh_get_origin_addr_reads_past_handle :
    vh_ready (ex_state [ex_record 7 3 11]) ∧
    vh_get_origin_addr (ex_state [ex_record 7 3 11]) 1 = none ∧
    vh_get_origin_addr
      (ex_state [ex_record 7 3 11, { ex_record 8 3 12 with last_sender_addr := ex_my_addr }]) 1 =
      some (NRF_SUCCESS, some ex_my_addr) ∧
    vh_get_gatts_handle
      (ex_state [{ ex_record 7 3 11 with char_value_handle := 21 }, ex_record 8 3 12]) 1 false =
      some (NRF_SUCCESS, some 21) := by
  decide

/-! ## Bitmaps -/

theorem testBit_bitmap_clr (bitmap i j : Nat) (hi : i < 32) :
    (bitmap_clr bitmap i).testBit j =
      (decide (j < 8) && bitmap.testBit j && decide (j ≠ i)) := by
  have h256 : (256 : Nat) = 2 ^ 8 := by norm_num
  have hpow : 2 ^ i < 2 ^ 32 := Nat.pow_lt_pow_right (by norm_num) hi
  have hnot : 0xFFFFFFFF - 2 ^ i = 2 ^ 32 - (2 ^ i + 1) := by omega
  unfold bitmap_clr int_not_bit
  rw [Nat.one_shiftLeft, hnot, h256, Nat.testBit_mod_two_pow, Nat.testBit_and,
    Nat.testBit_two_pow_sub_succ hpow, Nat.testBit_two_pow]
  by_cases h8 : j < 8
  · have h32 : j < 32 := by omega
    by_cases hji : j = i
    · subst hji
      simp
    · have hij : ¬ i = j := fun h => hji h.symm
      simp [h8, h32, hji, hij]
  · simp [h8]

theorem flag_is_set_bitmap_clr (bitmap i j : Nat) (hi : i < 32) (hj : j < 8) :
    flag_is_set (bitmap_clr bitmap i) j = (flag_is_set bitmap j && decide (j ≠ i)) := by
  rw [flag_is_set_eq_testBit, flag_is_set_eq_testBit, testBit_bitmap_clr bitmap i j hi]
  simp [hj]

theorem bitmap_clr_of_clear (bitmap i : Nat) (hi : i < 32) (h8 : bitmap < 256)
    (hclear : flag_is_set bitmap i = false) : bitmap_clr bitmap i = bitmap := by
  apply Nat.eq_of_testBit_eq
  intro j
  rw [testBit_bitmap_clr bitmap i j hi]
  rw [flag_is_set_eq_testBit] at hclear
  by_cases hj : j < 8
  · by_cases hji : j = i
    · subst hji
      simp [hclear]
    · simp [hj, hji]
  · have hlt : bitmap < 2 ^ j :=
      Nat.lt_of_lt_of_le h8 (by
        have h256 : (256 : Nat) = 2 ^ 8 := by norm_num
        rw [h256]
        exact Nat.pow_le_pow_right (by norm_num) (by omega))
    simp [hj, Nat.testBit_lt_two_pow hlt]

/-! ## Timer scheduler -/

theorem irq_restore_disable (st : timer_state) :
    irq_restore st.irq_masked (irq_disable st) = st := by
  cases st with
  | mk CC EV INTEN EEP TEP CHEN cbs act sync masked =>
    cases masked <;> rfl

theorem is_in_ts_disable (env : timer_env) (st : timer_state) :
    is_in_ts env (irq_disable st) = is_in_ts env st := rfl

/-- C13: when the timeslot-end compare event is signaled, each of
`timer_order_cb`, `timer_order_cb_sync_exec`, `timer_order_cb_ppi` and
`timer_order_ppi` returns the scheduler state it was given: callback table,
both bitmaps, the timer and PPI registers and the interrupt mask are as
before, for every slot, time, callback and task. -/
theorem timer_order_outside_window (env : timer_env) (st : timer_state)
    (timer time callback task : Nat)
    (hclosed : st.EVENTS_COMPARE env.TIMER_INDEX_TS_END ≠ 0) :
    timer_order_cb env st timer time callback = st ∧
    timer_order_cb_sync_exec env st timer time callback = st ∧
    timer_order_cb_ppi env st timer time callback task = st ∧
    timer_order_ppi env st timer time task = st := by
  have hts : ¬ (is_in_ts env (irq_disable st) = true) := by
    rw [is_in_ts_disable]
    simp [is_in_ts, hclosed]
  refine ⟨?_, ?_, ?_, ?_⟩
  · simp only [timer_order_cb, if_neg hts]
    exact irq_restore_disable st
  · simp only [timer_order_cb_sync_exec, if_neg hts]
    exact irq_restore_disable st
  · simp only [timer_order_cb_ppi, if_neg hts]
    exact irq_restore_disable st
  · simp only [timer_order_ppi, if_neg hts]
    exact irq_restore_disable st

/-- C13 exercised: with the timeslot-end event signaled, ordering slot 1
changes nothing. -/
theorem timer_order_outside_window_witness :
    timer_order_cb ex_timer_env (timer_hw_compare ex_timer_zero 3) 1 100 7 =
      timer_hw_compare ex_timer_zero 3 ∧
    timer_order_cb_sync_exec ex_timer_env (timer_hw_compare ex_timer_zero 3) 1 100 7 =
      timer_hw_compare ex_timer_zero 3 ∧
    timer_order_cb_ppi ex_timer_env (timer_hw_compare ex_timer_zero 3) 1 100 7 5 =
      timer_hw_compare ex_timer_zero 3 ∧
    timer_order_ppi ex_timer_env (timer_hw_compare ex_timer_zero 3) 1 100 5 =
      timer_hw_compare ex_timer_zero 3 :=
  timer_order_outside_window ex_timer_env (timer_hw_compare ex_timer_zero 3) 1 100 7 5
    (by decide)

theorem timer_abort_tables (env : timer_env) (st : timer_state) (timer : Nat) :
    (timer_abort env st timer).callbacks = st.callbacks ∧
    (timer_abort env st timer).sync_exec_bitmap = st.sync_exec_bitmap ∧
    ((timer_abort env st timer).active_callbacks = st.active_callbacks ∨
     (timer_abort env st timer).active_callbacks = bitmap_clr st.active_callbacks timer) := by
  unfold timer_abort
  dsimp only
  rw [is_in_ts_disable]
  by_cases hts : is_in_ts env st = true
  · by_cases h4 : timer < 4
    · rw [if_pos hts, if_pos h4]
      unfold irq_restore
      split
      · exact ⟨rfl, rfl, Or.inr rfl⟩
      · exact ⟨rfl, rfl, Or.inr rfl⟩
    · rw [if_pos hts, if_neg h4]
      unfold irq_restore
      split
      · exact ⟨rfl, rfl, Or.inl rfl⟩
      · exact ⟨rfl, rfl, Or.inl rfl⟩
  · rw [if_neg hts]
    unfold irq_restore
    split
    · exact ⟨rfl, rfl, Or.inl rfl⟩
    · exact ⟨rfl, rfl, Or.inl rfl⟩

theorem timer_event_handler_body_chan (env : timer_env) (i : Nat) (st : timer_state) :
    ∀ d ∈ (timer_event_handler_body env i st).2.1, d.chan = i := by
  intro d hd
  unfold timer_event_handler_body at hd
  dsimp only at hd
  split at hd
  · split at hd
    · simp at hd
      subst hd
      rfl
    · split at hd
      · simp at hd
        subst hd
        rfl
      · simp at hd
        subst hd
        rfl
  · simp at hd

theorem timer_event_handler_body_length (env : timer_env) (i : Nat) (st : timer_state) :
    (timer_event_handler_body env i st).2.1.length ≤ 1 := by
  unfold timer_event_handler_body
  dsimp only
  split
  · split
    · simp
    · split <;> simp
  · simp

theorem timer_event_handler_body_inactive (env : timer_env) (i : Nat) (st : timer_state)
    (hclear : flag_is_set st.active_callbacks i = false) :
    timer_event_handler_body env i st = (st, [], false) := by
  unfold timer_event_handler_body
  rw [if_neg (by simp [hclear])]

theorem timer_event_handler_body_keeps_clear (env : timer_env) (i slot : Nat)
    (st : timer_state) (hi : i < 32) (hslot : slot < 8)
    (hcb : ∀ cb ts s, flag_is_set s.active_callbacks slot = false →
      flag_is_set (env.run_cb cb ts s).active_callbacks slot = false)
    (hclear : flag_is_set st.active_callbacks slot = false) :
    flag_is_set (timer_event_handler_body env i st).1.active_callbacks slot = false := by
  have hclr : flag_is_set (bitmap_clr st.active_callbacks i) slot = false := by
    rw [flag_is_set_bitmap_clr _ _ _ hi hslot, hclear]
    rfl
  unfold timer_event_handler_body
  dsimp only
  split
  · split
    · exact hclr
    · split
      · exact hcb _ _ _ hclr
      · exact hclr
  · exact hclear

theorem timer_event_loop_chan (env : timer_env) (n : Nat) :
    ∀ (i : Nat) (st : timer_state),
      (∀ d ∈ (timer_event_loop env n i st).2, i ≤ d.chan ∧ d.chan < i + n) ∧
      List.Pairwise (fun a b => a.chan < b.chan) (timer_event_loop env n i st).2 := by
  induction n with
  | zero =>
    intro i st
    simp [timer_event_loop]
  | succ n ih =>
    intro i st
    have hbody := timer_event_handler_body_chan env i st
    have hlen := timer_event_handler_body_length env i st
    have hpair : List.Pairwise (fun a b => a.chan < b.chan)
        (timer_event_handler_body env i st).2.1 := by
      match hl : (timer_event_handler_body env i st).2.1 with
      | [] => exact List.Pairwise.nil
      | [d] => simp
      | d :: e :: l => rw [hl] at hlen; simp at hlen
    simp only [timer_event_loop]
    split
    · refine ⟨?_, hpair⟩
      intro d hd
      have := hbody d hd
      omega
    · obtain ⟨hrest, hprest⟩ := ih (i + 1) (timer_event_handler_body env i st).1
      refine ⟨?_, ?_⟩
      · intro d hd
        rcases List.mem_append.mp hd with h | h
        · have := hbody d h
          omega
        · have := hrest d h
          omega
      · rw [List.pairwise_append]
        refine ⟨hpair, hprest, ?_⟩
        intro a ha b hb
        have h1 := hbody a ha
        have h2 := hrest b hb
        omega

theorem timer_event_loop_inactive (env : timer_env) (slot : Nat) (hslot : slot < 8)
    (hcb : ∀ cb ts s, flag_is_set s.active_callbacks slot = false →
      flag_is_set (env.run_cb cb ts s).active_callbacks slot = false)
    (n : Nat) :
    ∀ (i : Nat) (st : timer_state), i + n ≤ 32 →
      flag_is_set st.active_callbacks slot = false →
      ∀ d ∈ (timer_event_loop env n i st).2, d.chan ≠ slot := by
  induction n with
  | zero =>
    intro i st _ _
    simp [timer_event_loop]
  | succ n ih =>
    intro i st hin hclear d hd
    have hkeep := timer_event_handler_body_keeps_clear env i slot st (by omega) hslot hcb hclear
    have hhere : ∀ e ∈ (timer_event_handler_body env i st).2.1, e.chan ≠ slot := by
      intro e he
      by_cases his : i = slot
      · subst his
        rw [timer_event_handler_body_inactive env i st hclear] at he
        simp at he
      · rw [timer_event_handler_body_chan env i st e he]
        exact his
    simp only [timer_event_loop] at hd
    split at hd
    · exact hhere d hd
    · rcases List.mem_append.mp hd with h | h
      · exact hhere d h
      · exact ih (i + 1) _ (by omega) hkeep d h

/-- C16: for a slot in 0..2 whose active bit is clear (in an 8-bit bitmap),
`timer_abort` leaves the callback table, the active bitmap and the sync
bitmap as they were, inside or outside the window; and a following
`timer_event_handler` entry, whatever compare events the hardware has
signaled meanwhile, dispatches nothing for that slot, provided the callbacks
it runs in interrupt context do not themselves activate the slot. -/
theorem timer_abort_inactive_slot (env : timer_env) (st : timer_state) (slot : Nat)
    (hslot : slot < 3) (h8 : st.active_callbacks < 256)
    (hclear : flag_is_set st.active_callbacks slot = false)
    (hcb : ∀ cb ts s, flag_is_set s.active_callbacks slot = false →
      flag_is_set (env.run_cb cb ts s).active_callbacks slot = false) :
    (timer_abort env st slot).callbacks = st.callbacks ∧
    (timer_abort env st slot).active_callbacks = st.active_callbacks ∧
    (timer_abort env st slot).sync_exec_bitmap = st.sync_exec_bitmap ∧
    ∀ events : Nat → Nat,
      ∀ d ∈ (timer_event_handler env
          { timer_abort env st slot with EVENTS_COMPARE := events }).2,
        d.chan ≠ slot := by
  obtain ⟨hcbs, hsync, hact⟩ := timer_abort_tables env st slot
  have hact2 : (timer_abort env st slot).active_callbacks = st.active_callbacks := by
    rcases hact with h | h
    · exact h
    · rw [h]
      exact bitmap_clr_of_clear _ _ (by omega) h8 hclear
  refine ⟨hcbs, hact2, hsync, ?_⟩
  intro events d hd
  exact timer_event_loop_inactive env slot (by omega) hcb 3 0 _ (by omega)
    (by simp only [hact2]; exact hclear) d hd

/-- C16 exercised: slot 1 is inactive while slot 0 is armed and its event
signaled; after `timer_abort 1` the handler dispatches only channel 0. -/
theorem timer_abort_inactive_slot_witness :
    (timer_abort ex_timer_env (timer_order_cb ex_timer_env ex_timer_zero 0 100 7) 1).callbacks =
      (timer_order_cb ex_timer_env ex_timer_zero 0 100 7).callbacks ∧
    (timer_abort ex_timer_env
        (timer_order_cb ex_timer_env ex_timer_zero 0 100 7) 1).active_callbacks =
      (timer_order_cb ex_timer_env ex_timer_zero 0 100 7).active_callbacks ∧
    (timer_abort ex_timer_env
        (timer_order_cb ex_timer_env ex_timer_zero 0 100 7) 1).sync_exec_bitmap =
      (timer_order_cb ex_timer_env ex_timer_zero 0 100 7).sync_exec_bitmap ∧
    ∀ events : Nat → Nat,
      ∀ d ∈ (timer_event_handler ex_timer_env
          { timer_abort ex_timer_env (timer_order_cb ex_timer_env ex_timer_zero 0 100 7) 1
            with EVENTS_COMPARE := events }).2,
        d.chan ≠ 1 :=
  timer_abort_inactive_slot ex_timer_env (timer_order_cb ex_timer_env ex_timer_zero 0 100 7) 1
    (by decide) (by decide) (by decide) (fun _ _ _ h => h)

theorem timer_event_handler_body_fires (env : timer_env) (i : Nat) (st : timer_state)
    (hact : flag_is_set st.active_callbacks i = true) (hev : st.EVENTS_COMPARE i ≠ 0)
    (hfp : env.check_fp (st.callbacks i) = true) :
    ∃ d s1 s2,
      timer_event_handler_body env i st = (s1, [d], false) ∧
      (d = timer_dispatch.invoked i (st.callbacks i) (st.CC i) ∨
       d = timer_dispatch.pushed i (st.callbacks i) (st.CC i)) ∧
      s2.active_callbacks = bitmap_clr st.active_callbacks i ∧
      s2.EVENTS_COMPARE = st.EVENTS_COMPARE ∧
      s2.callbacks = st.callbacks ∧
      (s1 = s2 ∨
       (flag_is_set st.sync_exec_bitmap i = true ∧
        s1 = env.run_cb (st.callbacks i) (st.CC i) s2)) := by
  unfold timer_event_handler_body
  dsimp only
  rw [if_pos ⟨hact, hev⟩, if_neg (by simp [hfp])]
  by_cases hsync : flag_is_set st.sync_exec_bitmap i = true
  · rw [if_pos hsync]
    exact ⟨_, _,
      { st with
        active_callbacks := bitmap_clr st.active_callbacks i,
        INTEN := reg_clr st.INTEN (1 <<< (env.TIMER_INTENCLR_COMPARE0_Pos + i)),
        sync_exec_bitmap := bitmap_clr st.sync_exec_bitmap i },
      rfl, Or.inl rfl, rfl, rfl, rfl, Or.inr ⟨hsync, rfl⟩⟩
  · rw [if_neg hsync]
    exact ⟨_, _,
      { st with
        active_callbacks := bitmap_clr st.active_callbacks i,
        INTEN := reg_clr st.INTEN (1 <<< (env.TIMER_INTENCLR_COMPARE0_Pos + i)) },
      rfl, Or.inr rfl, rfl, rfl, rfl, Or.inl rfl⟩

/-- C15: every `timer_event_handler` entry dispatches channels in strictly
increasing index order, all below 3, hence each at most once. When channels 0
and 1 are both active with their compare events signaled on entry, both
callbacks pass `CHECK_FP`, and channel 0's callback, if it runs in interrupt
context, leaves channel 1's active bit, event and table entry alone, the
dispatch of channel 0's callback is first and is directly followed by the
dispatch of channel 1's callback. -/
theorem timer_event_handler_channel_order (env : timer_env) (st : timer_state) :
    List.Pairwise (fun a b => a.chan < b.chan) (timer_event_handler env st).2 ∧
    (∀ d ∈ (timer_event_handler env st).2, d.chan < 3) ∧
    (flag_is_set st.active_callbacks 0 = true → st.EVENTS_COMPARE 0 ≠ 0 →
     flag_is_set st.active_callbacks 1 = true → st.EVENTS_COMPARE 1 ≠ 0 →
     env.check_fp (st.callbacks 0) = true → env.check_fp (st.callbacks 1) = true →
     (flag_is_set st.sync_exec_bitmap 0 = true → ∀ s,
        flag_is_set (env.run_cb (st.callbacks 0) (st.CC 0) s).active_callbacks 1 =
          flag_is_set s.active_callbacks 1 ∧
        (env.run_cb (st.callbacks 0) (st.CC 0) s).EVENTS_COMPARE 1 = s.EVENTS_COMPARE 1 ∧
        (env.run_cb (st.callbacks 0) (st.CC 0) s).callbacks 1 = s.callbacks 1) →
     ∃ d0 d1 rest,
       (timer_event_handler env st).2 = d0 :: d1 :: rest ∧
       (d0 = timer_dispatch.invoked 0 (st.callbacks 0) (st.CC 0) ∨
        d0 = timer_dispatch.pushed 0 (st.callbacks 0) (st.CC 0)) ∧
       (∃ ts, d1 = timer_dispatch.invoked 1 (st.callbacks 1) ts ∨
              d1 = timer_dispatch.pushed 1 (st.callbacks 1) ts)) := by
  obtain ⟨hbound, hpair⟩ := timer_event_loop_chan env 3 0 st
  refine ⟨hpair, ?_, ?_⟩
  · intro d hd
    have := hbound d hd
    omega
  · intro ha0 he0 ha1 he1 hfp0 hfp1 hframe
    obtain ⟨d0, s1, s2, hbody0, hd0, hact2, hev2, hcb2, hs1⟩ :=
      timer_event_handler_body_fires env 0 st ha0 he0 hfp0
    have hs2 : flag_is_set s2.active_callbacks 1 = true ∧ s2.EVENTS_COMPARE 1 ≠ 0 ∧
        s2.callbacks 1 = st.callbacks 1 := by
      refine ⟨?_, ?_, ?_⟩
      · rw [hact2, flag_is_set_bitmap_clr _ _ _ (by decide) (by decide), ha1]
        rfl
      · rw [hev2]
        exact he1
      · rw [hcb2]
    have hs1' : flag_is_set s1.active_callbacks 1 = true ∧ s1.EVENTS_COMPARE 1 ≠ 0 ∧
        s1.callbacks 1 = st.callbacks 1 := by
      rcases hs1 with h | ⟨hsync, h⟩
      · rw [h]
        exact hs2
      · obtain ⟨f1, f2, f3⟩ := hframe hsync s2
        rw [h, f1, f2, f3]
        exact hs2
    obtain ⟨d1, t1, t2, hbody1, hd1, -, -, -, -⟩ :=
      timer_event_handler_body_fires env 1 s1 hs1'.1 hs1'.2.1 (by rw [hs1'.2.2]; exact hfp1)
    refine ⟨d0, d1, (timer_event_loop env 1 2 t1).2, ?_, hd0, ?_⟩
    · simp [timer_event_handler, timer_event_loop, hbody0, hbody1]
    · rw [hs1'.2.2] at hd1
      exact ⟨s1.CC 1, hd1⟩

/-- C15 exercised: channels 0 and 1 armed for the same tick, both events
signaled; the handler's dispatches start with channel 0, then channel 1. -/
theorem timer_event_handler_channel_order_witness :
    ∃ d0 d1 rest,
      (timer_event_handler ex_timer_env
        (timer_hw_compare (timer_hw_compare
          (timer_order_cb ex_timer_env
            (timer_order_cb_sync_exec ex_timer_env ex_timer_zero 0 100 7) 1 100 9) 0) 1)).2 =
        d0 :: d1 :: rest ∧
      (d0 = timer_dispatch.invoked 0
          ((timer_hw_compare (timer_hw_compare
            (timer_order_cb ex_timer_env
              (timer_order_cb_sync_exec ex_timer_env ex_timer_zero 0 100 7) 1 100 9) 0)
              1).callbacks 0)
          ((timer_hw_compare (timer_hw_compare
            (timer_order_cb ex_timer_env
              (timer_order_cb_sync_exec ex_timer_env ex_timer_zero 0 100 7) 1 100 9) 0)
              1).CC 0) ∨
       d0 = timer_dispatch.pushed 0
          ((timer_hw_compare (timer_hw_compare
            (timer_order_cb ex_timer_env
              (timer_order_cb_sync_exec ex_timer_env ex_timer_zero 0 100 7) 1 100 9) 0)
              1).callbacks 0)
          ((timer_hw_compare (timer_hw_compare
            (timer_order_cb ex_timer_env
              (timer_order_cb_sync_exec ex_timer_env ex_timer_zero 0 100 7) 1 100 9) 0)
              1).CC 0)) ∧
      (∃ ts, d1 = timer_dispatch.invoked 1
          ((timer_hw_compare (timer_hw_compare
            (timer_order_cb ex_timer_env
              (timer_order_cb_sync_exec ex_timer_env ex_timer_zero 0 100 7) 1 100 9) 0)
              1).callbacks 1) ts ∨
        d1 = timer_dispatch.pushed 1
          ((timer_hw_compare (timer_hw_compare
            (timer_order_cb ex_timer_env
              (timer_order_cb_sync_exec ex_timer_env ex_timer_zero 0 100 7) 1 100 9) 0)
              1).callbacks 1) ts) :=
  (timer_event_handler_channel_order ex_timer_env
    (timer_hw_compare (timer_hw_compare
      (timer_order_cb ex_timer_env
        (timer_order_cb_sync_exec ex_timer_env ex_timer_zero 0 100 7) 1 100 9) 0) 1)).2.2
    (by decide) (by decide) (by decide) (by decide) rfl rfl
    (fun _ _ => ⟨rfl, rfl, rfl⟩)

/-- C14 at the failing input: slot 1 is armed with `timer_order_cb_sync_exec`
(callback 7), aborted, and armed again with `timer_order_cb` (callback 9, time
200). The sync bit of slot 1 survives both calls, so when the compare event
fires the handler calls callback 9 in interrupt context and pushes nothing to
the event queue. The same happens without the abort. -/
theorem timer_order_cb_stale_sync_bit :
    flag_is_set
      (timer_order_cb ex_timer_env
        (timer_abort ex_timer_env
          (timer_order_cb_sync_exec ex_timer_env ex_timer_zero 1 100 7) 1)
        1 200 9).sync_exec_bitmap 1 = true ∧
    (timer_event_handler ex_timer_env
      (timer_hw_compare
        (timer_order_cb ex_timer_env
          (timer_abort ex_timer_env
            (timer_order_cb_sync_exec ex_timer_env ex_timer_zero 1 100 7) 1)
          1 200 9) 1)).2 = [timer_dispatch.invoked 1 9 200] ∧
    (timer_event_handler ex_timer_env
      (timer_hw_compare
        (timer_order_cb ex_timer_env
          (timer_order_cb_sync_exec ex_timer_env ex_timer_zero 1 100 7)
          1 200 9) 1)).2 = [timer_dispatch.invoked 1 9 200] := by
  decide

/-! ## Retransmission sweep -/

theorem sweep_example_backpressure :
    transmit_all_instances ex_env
      (ex_state [ex_used_record 5 0, ex_used_record 6 0, ex_used_record 7 0]) 50 =
    some
      { g_md_set :=
          { md := [{ ex_used_record 5 0 with trickle := { t := 1090, other := 1 } },
                   { ex_used_record 6 0 with trickle := { t := 1090, other := 0 } },
                   ex_used_record 7 0],
            handle_count := 3 },
        g_is_initialized := true,
        handle := 1,
        calls := [vh_call.trickle_tx_timeout 0, vh_call.tc_tx 1 5 ex_peer_addr,
                  vh_call.trickle_tx_register 0, vh_call.trickle_tx_timeout 1,
                  vh_call.tc_tx 2 6 ex_peer_addr,
                  vh_call.timer_order_cb 2 90] } := by
  decide

theorem cursor_wrap_loop_eq (count : Nat) (hc : 0 < count) :
    ∀ fuel handle, handle ≤ fuel → cursor_wrap_loop fuel handle count = handle % count := by
  intro fuel
  induction fuel with
  | zero =>
    intro handle h
    have h0 : handle = 0 := by omega
    subst h0
    simp [cursor_wrap_loop]
  | succ fuel ih =>
    intro handle h
    unfold cursor_wrap_loop
    by_cases hge : handle ≥ count
    · rw [if_pos hge, ih (handle - count) (by omega)]
      exact (Nat.mod_eq_sub_mod hge).symm
    · rw [if_neg hge]
      exact (Nat.mod_eq_of_lt (by omega)).symm

theorem cursor_wrap_eq (handle count : Nat) (hc : 0 < count) :
    cursor_wrap handle count = handle % count :=
  cursor_wrap_loop_eq count hc handle handle (Nat.le_refl _)

theorem used_at_congr (st st1 : vh_state)
    (h : st1.g_md_set.md.map md_static = st.g_md_set.md.map md_static) (i : Nat) :
    used_at st1 i ↔ used_at st i := by
  have hi : (st1.g_md_set.md[i]?).map md_static = (st.g_md_set.md[i]?).map md_static := by
    rw [← List.getElem?_map, ← List.getElem?_map, h]
  unfold used_at
  constructor
  · rintro ⟨r, hr, hu⟩
    rw [hr] at hi
    cases hst : st.g_md_set.md[i]? with
    | none => rw [hst] at hi; simp at hi
    | some r0 =>
      rw [hst] at hi
      simp only [Option.map_some', Option.some.injEq, md_static, Prod.mk.injEq] at hi
      refine ⟨r0, rfl, ?_⟩
      unfold md_used at hu ⊢
      rw [← hi.2.2.1]
      exact hu
  · rintro ⟨r, hr, hu⟩
    rw [hr] at hi
    cases hst : st1.g_md_set.md[i]? with
    | none => rw [hst] at hi; simp at hi
    | some r0 =>
      rw [hst] at hi
      simp only [Option.map_some', Option.some.injEq, md_static, Prod.mk.injEq] at hi
      refine ⟨r0, rfl, ?_⟩
      unfold md_used at hu ⊢
      rw [hi.2.2.1]
      exact hu

theorem md_static_set (md : List metadata_t) (k : Nat) (r q : metadata_t)
    (hr : md[k]? = some r) (hq : md_static q = md_static r) :
    (md.set k q).map md_static = md.map md_static := by
  rw [List.map_set]
  apply List.ext_getElem?
  intro n
  rw [List.getElem?_set']
  by_cases hn : k = n
  · subst hn
    simp [hr, hq]
  · rw [if_neg hn]

/-! ## Ordering the next transmission -/

theorem order_next_scan_eq (md : List metadata_t) (limit : Nat) :
    ∀ n i e, i + n = md.length →
      order_next_scan md limit n i e = some ((md.drop i).foldl (order_next_pick limit) e) := by
  intro n
  induction n with
  | zero =>
    intro i e h
    have hi : md.length ≤ i := by omega
    simp [order_next_scan, List.drop_eq_nil_of_le hi]
  | succ n ih =>
    intro i e h
    have hi : i < md.length := by omega
    simp only [order_next_scan, List.getElem?_eq_getElem hi]
    rw [ih (i + 1) _ (by omega), List.drop_eq_getElem_cons hi]
    rfl

theorem order_next_fold_spec (limit : Nat) :
    ∀ (l : List metadata_t) (e : Nat),
      l.foldl (order_next_pick limit) e ≤ e ∧
      (l.foldl (order_next_pick limit) e = e ∨
        ∃ r ∈ l, md_used r = true ∧ r.trickle.t > limit ∧
          r.trickle.t = l.foldl (order_next_pick limit) e) ∧
      ∀ r ∈ l, md_used r = true → r.trickle.t > limit →
        l.foldl (order_next_pick limit) e ≤ r.trickle.t := by
  intro l
  induction l with
  | nil =>
    intro e
    simp
  | cons r l ih =>
    intro e
    obtain ⟨hle, hmem, hmin⟩ := ih (order_next_pick limit e r)
    simp only [List.foldl_cons]
    by_cases hq : flag_is_set r.flags MESH_MD_FLAGS_USED_POS = true ∧ r.trickle.t < e ∧
        r.trickle.t > limit
    · have hpick : order_next_pick limit e r = r.trickle.t := by
        unfold order_next_pick
        rw [if_pos hq]
      rw [hpick] at hle hmem hmin ⊢
      refine ⟨by omega, Or.inr ?_, ?_⟩
      · rcases hmem with h | ⟨r2, hr2, hu, hl, ht⟩
        · exact ⟨r, List.mem_cons_self _ _, hq.1, hq.2.2, h.symm⟩
        · exact ⟨r2, List.mem_cons_of_mem _ hr2, hu, hl, ht⟩
      · intro r2 hr2 hu hl
        rcases List.mem_cons.mp hr2 with h | h
        · subst h
          exact hle
        · exact hmin r2 h hu hl
    · have hpick : order_next_pick limit e r = e := by
        unfold order_next_pick
        rw [if_neg hq]
      rw [hpick] at hle hmem hmin ⊢
      refine ⟨hle, ?_, ?_⟩
      · rcases hmem with h | ⟨r2, hr2, hu, hl, ht⟩
        · exact Or.inl h
        · exact Or.inr ⟨r2, List.mem_cons_of_mem _ hr2, hu, hl, ht⟩
      · intro r2 hr2 hu hl
        rcases List.mem_cons.mp hr2 with h | h
        · subst h
          have : ¬ r2.trickle.t < e := fun hlt => hq ⟨hu, hlt, hl⟩
          omega
        · exact hmin r2 h hu hl

theorem mem_due_times (st : vh_state) (limit t : Nat) :
    t ∈ due_times st limit ↔
      ∃ r ∈ st.g_md_set.md, md_used r = true ∧ r.trickle.t > limit ∧ r.trickle.t = t := by
  unfold due_times
  simp only [List.mem_map, List.mem_filter, Bool.and_eq_true, decide_eq_true_eq]
  constructor
  · rintro ⟨r, ⟨hr, hu, hl⟩, ht⟩
    exact ⟨r, hr, hu, hl, ht⟩
  · rintro ⟨r, hr, hu, hl, ht⟩
    exact ⟨r, ⟨hr, hu, hl⟩, ht⟩

theorem order_next_transmission_spec (env : vh_env) (st : vh_state) (time_now : Nat)
    (hlen : st.g_md_set.md.length = st.g_md_set.handle_count)
    (hend : env.end_time ≤ UINT64_MAX) :
    ∃ post,
      order_next_transmission env st time_now =
        some { st with calls := st.calls ++ post } ∧
      ((∃ m, m ∈ due_times st ((time_now + env.global_time) % 2 ^ 64) ∧
          (∀ t ∈ due_times st ((time_now + env.global_time) % 2 ^ 64), m ≤ t) ∧
          m < env.end_time ∧
          post = [vh_call.timer_order_cb env.TIMER_INDEX_VH
            ((((m : Int) - (env.global_time : Int)) % 2 ^ 64).toNat % 2 ^ 32)]) ∨
       ((∀ t ∈ due_times st ((time_now + env.global_time) % 2 ^ 64), env.end_time ≤ t) ∧
          post = [])) := by
  obtain ⟨hle, hmem, hmin⟩ :=
    order_next_fold_spec ((time_now + env.global_time) % 2 ^ 64) st.g_md_set.md UINT64_MAX
  have hscan := order_next_scan_eq st.g_md_set.md ((time_now + env.global_time) % 2 ^ 64)
    st.g_md_set.handle_count 0 UINT64_MAX (by omega)
  rw [List.drop_zero] at hscan
  unfold order_next_transmission
  simp only [hscan]
  by_cases hlt : st.g_md_set.md.foldl
      (order_next_pick ((time_now + env.global_time) % 2 ^ 64)) UINT64_MAX < env.end_time
  · rw [if_pos hlt]
    refine ⟨_, rfl, Or.inl ⟨_, ?_, ?_, hlt, rfl⟩⟩
    · rw [mem_due_times]
      rcases hmem with h | h
      · omega
      · exact h
    · intro t ht
      rw [mem_due_times] at ht
      obtain ⟨r, hr, hu, hl, hrt⟩ := ht
      rw [← hrt]
      exact hmin r hr hu hl
  · rw [if_neg hlt]
    refine ⟨[], by simp, Or.inr ⟨?_, rfl⟩⟩
    intro t ht
    rw [mem_due_times] at ht
    obtain ⟨r, hr, hu, hl, hrt⟩ := ht
    have := hmin r hr hu hl
    omega

theorem timer_time_truncation (m b : Nat) :
    (((m : Int) - (b : Int)) % 2 ^ 64).toNat % 2 ^ 32 =
      (((m : Int) - (b : Int)) % 2 ^ 32).toNat := by
  norm_num
  omega

theorem timer_time_exact (m b : Nat) (hb : b ≤ m) (hlt : m - b < 2 ^ 32) :
    (((m : Int) - (b : Int)) % 2 ^ 32).toNat = m - b := by
  norm_num at hlt ⊢
  omega

/-- C18, as stated, fails: with window start 0, window end 2^33, time 0 and a
single USED record whose `trickle.t` is 2^32 + 5, the timer is armed with
compare time 5, not with min(S) - begin = 2^32 + 5: the `time` parameter of
`timer_order_cb` has 32 bits. -/
theorem order_next_transmission_truncates_counterexample :
    due_times (ex_state [ex_used_record 5 4294967301])
      ((0 + ex_env_wide.global_time) % 2 ^ 64) = [4294967301] ∧
    4294967301 < ex_env_wide.end_time ∧
    order_next_transmission ex_env_wide (ex_state [ex_used_record 5 4294967301]) 0 =
      some { ex_state [ex_used_record 5 4294967301] with
        calls := [vh_call.timer_order_cb ex_env_wide.TIMER_INDEX_VH 5] } ∧
    4294967301 - ex_env_wide.global_time ≠ 5 := by
  decide

/-- C18 (amended): for every engine state whose array holds `handle_count`
records, window start `begin`, window end `end` (64-bit) and time `now`,
`order_next_transmission now` returns and calls `timer_order_cb` at most once.
With S the `trickle.t` of the records with USED set and
`trickle.t > (now + begin) mod 2^64`, it arms the version-handler timer with
compare time `(min S - begin) mod 2^32` and the sweep as callback when S is
non-empty and `min S < end`, and arms no timer otherwise. The compare time is
`min S - begin` itself whenever that difference is below 2^32. -/
theorem order_next_transmission_arms (env : vh_env) (st : vh_state) (time_now : Nat)
    (hlen : st.g_md_set.md.length = st.g_md_set.handle_count)
    (hend : env.end_time ≤ UINT64_MAX) :
    ∃ post,
      order_next_transmission env st time_now =
        some { st with calls := st.calls ++ post } ∧
      post.length ≤ 1 ∧
      ((∃ m, m ∈ due_times st ((time_now + env.global_time) % 2 ^ 64) ∧
          (∀ t ∈ due_times st ((time_now + env.global_time) % 2 ^ 64), m ≤ t) ∧
          m < env.end_time ∧
          post = [vh_call.timer_order_cb env.TIMER_INDEX_VH
            (((m : Int) - (env.global_time : Int)) % 2 ^ 32).toNat] ∧
          (env.global_time ≤ m → m - env.global_time < 2 ^ 32 →
            post = [vh_call.timer_order_cb env.TIMER_INDEX_VH (m - env.global_time)])) ∨
       ((∀ t ∈ due_times st ((time_now + env.global_time) % 2 ^ 64), env.end_time ≤ t) ∧
          post = [])) := by
  obtain ⟨post, hrun, hcase⟩ := order_next_transmission_spec env st time_now hlen hend
  refine ⟨post, hrun, ?_, ?_⟩
  · rcases hcase with ⟨m, -, -, -, hpost⟩ | ⟨-, hpost⟩
    · rw [hpost]
      simp
    · rw [hpost]
      simp
  · rcases hcase with ⟨m, hm, hmin, hlt, hpost⟩ | ⟨hall, hpost⟩
    · rw [timer_time_truncation] at hpost
      refine Or.inl ⟨m, hm, hmin, hlt, hpost, ?_⟩
      intro hb hd
      rw [hpost, timer_time_exact m env.global_time hb hd]
    · exact Or.inr ⟨hall, hpost⟩

/-- C18 (amended) exercised: window 1000..11000, time 100, USED records due at
1500 and 1200 and an unused one due at 1150. -/
theorem order_next_transmission_arms_witness :
    ∃ post,
      order_next_transmission ex_env
        (ex_state [ex_used_record 5 1500, ex_used_record 6 1200,
          { ex_used_record 7 1150 with flags := 2 }]) 100 =
        some { ex_state [ex_used_record 5 1500, ex_used_record 6 1200,
            { ex_used_record 7 1150 with flags := 2 }] with
          calls := (ex_state [ex_used_record 5 1500, ex_used_record 6 1200,
            { ex_used_record 7 1150 with flags := 2 }]).calls ++ post } ∧
      post.length ≤ 1 ∧
      ((∃ m, m ∈ due_times (ex_state [ex_used_record 5 1500, ex_used_record 6 1200,
              { ex_used_record 7 1150 with flags := 2 }])
            ((100 + ex_env.global_time) % 2 ^ 64) ∧
          (∀ t ∈ due_times (ex_state [ex_used_record 5 1500, ex_used_record 6 1200,
              { ex_used_record 7 1150 with flags := 2 }])
            ((100 + ex_env.global_time) % 2 ^ 64), m ≤ t) ∧
          m < ex_env.end_time ∧
          post = [vh_call.timer_order_cb ex_env.TIMER_INDEX_VH
            (((m : Int) - (ex_env.global_time : Int)) % 2 ^ 32).toNat] ∧
          (ex_env.global_time ≤ m → m - ex_env.global_time < 2 ^ 32 →
            post = [vh_call.timer_order_cb ex_env.TIMER_INDEX_VH
              (m - ex_env.global_time)])) ∨
       ((∀ t ∈ due_times (ex_state [ex_used_record 5 1500, ex_used_record 6 1200,
              { ex_used_record 7 1150 with flags := 2 }])
            ((100 + ex_env.global_time) % 2 ^ 64), ex_env.end_time ≤ t) ∧
          post = [])) :=
  order_next_transmission_arms ex_env
    (ex_state [ex_used_record 5 1500, ex_used_record 6 1200,
      { ex_used_record 7 1150 with flags := 2 }]) 100 (by decide) (by decide)

theorem order_next_example :
    order_next_transmission ex_env
      (ex_state [ex_used_record 5 1500, ex_used_record 6 1200,
        { ex_used_record 7 1150 with flags := 2 }]) 100 =
      some { ex_state [ex_used_record 5 1500, ex_used_record 6 1200,
          { ex_used_record 7 1150 with flags := 2 }] with
        calls := [vh_call.timer_order_cb 2 200] } := by
  decide

/-! ## The sweep loop -/

theorem sweep_body_spec (env : vh_env) (timestamp : Nat) (st : vh_state)
    (hlen : st.g_md_set.md.length = st.g_md_set.handle_count)
    (hpos : 0 < st.g_md_set.handle_count) :
    ∃ st1 b new,
      sweep_body env timestamp st = some (st1, b) ∧
      sweep_frame st st1 new ∧
      (∀ c ∈ new, ∀ i, c.index = some i → used_at st i) ∧
      (b = true → st1.handle < st.g_md_set.handle_count ∧
        ∃ v a, new = [vh_call.trickle_tx_timeout st1.handle,
                      vh_call.tc_tx (st1.handle + 1) v a] ∧
          env.tc_tx (st1.handle + 1) v a ≠ NRF_SUCCESS) ∧
      (b = false → ∀ h v a, vh_call.tc_tx h v a ∈ new → env.tc_tx h v a = NRF_SUCCESS) := by
  have hk : cursor_wrap st.handle st.g_md_set.handle_count =
      st.handle % st.g_md_set.handle_count := cursor_wrap_eq _ _ hpos
  have hklt : st.handle % st.g_md_set.handle_count < st.g_md_set.md.length := by
    rw [hlen]
    exact Nat.mod_lt _ hpos
  have hrec := List.getElem?_eq_getElem hklt
  generalize st.g_md_set.md[st.handle % st.g_md_set.handle_count] = r at hrec
  have hused : ∀ (c : vh_call) (i : Nat),
      flag_is_set r.flags MESH_MD_FLAGS_USED_POS = true →
      c.index = some (st.handle % st.g_md_set.handle_count) →
      c.index = some i → used_at st i := by
    intro c i hu hc hi
    rw [hc] at hi
    cases hi
    exact ⟨r, hrec, hu⟩
  have hkcount : st.handle % st.g_md_set.handle_count < st.g_md_set.handle_count :=
    Nat.mod_lt _ hpos
  unfold sweep_body
  simp only [hk, hrec]
  by_cases hdue : flag_is_set r.flags MESH_MD_FLAGS_USED_POS = true ∧
      r.trickle.t ≤ (timestamp + env.global_time) % 2 ^ 64
  · rw [if_pos hdue]
    by_cases htx : (env.trickle_tx_timeout r.trickle
        ((timestamp + env.global_time) % 2 ^ 64)).2 = true
    · rw [if_pos htx]
      by_cases hfail : env.tc_tx (st.handle % st.g_md_set.handle_count + 1)
          r.version_number r.last_sender_addr ≠ NRF_SUCCESS
      · rw [if_pos hfail]
        refine ⟨_, true, _, rfl, ⟨by simp, rfl, rfl, ?_, rfl⟩, ?_, ?_, ?_⟩
        · exact md_static_set _ _ r _ hrec rfl
        · intro c hc i hi
          simp only [List.mem_cons, List.mem_singleton, List.not_mem_nil, or_false] at hc
          rcases hc with h | h
          · subst h
            exact hused _ i hdue.1 (by simp [vh_call.index]) hi
          · subst h
            exact hused _ i hdue.1 (by simp [vh_call.index]) hi
        · intro _
          exact ⟨hkcount, _, _, rfl, hfail⟩
        · intro h
          cases h
      · rw [if_neg hfail]
        have hok : env.tc_tx (st.handle % st.g_md_set.handle_count + 1)
            r.version_number r.last_sender_addr = NRF_SUCCESS := by
          by_contra hne
          exact hfail hne
        refine ⟨_, false, _, rfl, ⟨by simp, rfl, rfl, ?_, rfl⟩, ?_, ?_, ?_⟩
        · exact md_static_set _ _ r _ hrec rfl
        · intro c hc i hi
          simp only [List.mem_cons, List.mem_singleton, List.not_mem_nil, or_false] at hc
          rcases hc with h | h | h
          · subst h
            exact hused _ i hdue.1 (by simp [vh_call.index]) hi
          · subst h
            exact hused _ i hdue.1 (by simp [vh_call.index]) hi
          · subst h
            exact hused _ i hdue.1 (by simp [vh_call.index]) hi
        · intro h
          cases h
        · intro _ h v a hmem
          simp only [List.mem_cons, List.mem_singleton, List.not_mem_nil, or_false,
            vh_call.tc_tx.injEq] at hmem
          rcases hmem with hm | hm | hm
          · cases hm
          · obtain ⟨h1, h2, h3⟩ := hm
            subst h1 h2 h3
            exact hok
          · cases hm
    · rw [if_neg htx]
      refine ⟨_, false, _, rfl, ⟨by simp, rfl, rfl, ?_, rfl⟩, ?_, ?_, ?_⟩
      · exact md_static_set _ _ r _ hrec rfl
      · intro c hc i hi
        simp only [List.mem_singleton] at hc
        subst hc
        exact hused _ i hdue.1 (by simp [vh_call.index]) hi
      · intro h
        cases h
      · intro _ h v a hmem
        simp at hmem
  · rw [if_neg hdue]
    refine ⟨_, false, [], rfl, ⟨rfl, rfl, rfl, rfl, by simp⟩, ?_, ?_, ?_⟩
    · intro c hc
      simp at hc
    · intro h
      cases h
    · intro _ h v a hmem
      simp at hmem

theorem sweep_loop_spec (env : vh_env) (timestamp : Nat) (n : Nat) :
    ∀ st : vh_state,
      st.g_md_set.md.length = st.g_md_set.handle_count →
      (0 < n → 0 < st.g_md_set.handle_count) →
      ∃ st1 new,
        sweep_loop env timestamp n st = some st1 ∧
        sweep_frame st st1 new ∧
        (∀ c ∈ new, ∀ i, c.index = some i → used_at st i) ∧
        (∀ h v a, vh_call.tc_tx h v a ∈ new → env.tc_tx h v a ≠ NRF_SUCCESS →
          h = st1.handle + 1 ∧ st1.handle < st1.g_md_set.handle_count ∧
          ∃ pre, new = pre ++ [vh_call.tc_tx h v a]) := by
  induction n with
  | zero =>
    intro st _ _
    refine ⟨st, [], rfl, ⟨rfl, rfl, rfl, rfl, by simp⟩, ?_, ?_⟩
    · intro c hc
      simp at hc
    · intro h v a hmem
      simp at hmem
  | succ n ih =>
    intro st hlen hpos
    have hcount := hpos (Nat.succ_pos n)
    obtain ⟨st1, b, new, hbody, hframe, hidx, hbreak, hcont⟩ :=
      sweep_body_spec env timestamp st hlen hcount
    obtain ⟨f1, f2, f3, f4, f5⟩ := hframe
    cases b with
    | true =>
      obtain ⟨hlt, v0, a0, hnew, hfail⟩ := hbreak rfl
      refine ⟨st1, new, ?_, ⟨f1, f2, f3, f4, f5⟩, hidx, ?_⟩
      · simp only [sweep_loop, hbody]
      · intro h v a hmem _
        rw [hnew] at hmem
        simp only [List.mem_cons, List.mem_singleton, List.not_mem_nil, or_false,
          vh_call.tc_tx.injEq] at hmem
        rcases hmem with hm | hm
        · cases hm
        · obtain ⟨h1, h2, h3⟩ := hm
          subst h1 h2 h3
          refine ⟨rfl, by rw [f2]; exact hlt, [vh_call.trickle_tx_timeout st1.handle], ?_⟩
          rw [hnew]
          rfl
    | false =>
      obtain ⟨st2, new2, hloop, ⟨g1, g2, g3, g4, g5⟩, hidx2, hfail2⟩ :=
        ih st1 (by rw [f1, f2]; exact hlen) (fun _ => by rw [f2]; exact hcount)
      refine ⟨st2, new ++ new2, ?_, ⟨by rw [g1, f1], by rw [g2, f2], by rw [g3, f3],
        by rw [g4, f4], by rw [g5, f5, List.append_assoc]⟩, ?_, ?_⟩
      · simp only [sweep_loop, hbody]
        exact hloop
      · intro c hc i hi
        rcases List.mem_append.mp hc with h | h
        · exact hidx c h i hi
        · exact (used_at_congr st st1 f4 i).mp (hidx2 c h i hi)
      · intro h v a hmem hne
        rcases List.mem_append.mp hmem with hm | hm
        · exact absurd (hcont rfl h v a hm) hne
        · obtain ⟨e1, e2, pre, e3⟩ := hfail2 h v a hm hne
          exact ⟨e1, e2, new ++ pre, by rw [e3, List.append_assoc]⟩

theorem transmit_all_instances_spec (env : vh_env) (st : vh_state) (timestamp : Nat)
    (hlen : st.g_md_set.md.length = st.g_md_set.handle_count)
    (hend : env.end_time ≤ UINT64_MAX) :
    ∃ st1 new post,
      transmit_all_instances env st timestamp = some st1 ∧
      sweep_frame st st1 (new ++ post) ∧
      (∀ c ∈ post, ∃ timer time, c = vh_call.timer_order_cb timer time) ∧
      (∀ c ∈ new, ∀ i, c.index = some i → used_at st i) ∧
      (∀ h v a, vh_call.tc_tx h v a ∈ new → env.tc_tx h v a ≠ NRF_SUCCESS →
        h = st1.handle + 1 ∧ st1.handle < st1.g_md_set.handle_count ∧
        ∃ pre, new = pre ++ [vh_call.tc_tx h v a]) := by
  obtain ⟨st1, new, hloop, ⟨f1, f2, f3, f4, f5⟩, hidx, hfail⟩ :=
    sweep_loop_spec env timestamp st.g_md_set.handle_count st hlen (fun h => h)
  obtain ⟨post, hnext, hcase⟩ :=
    order_next_transmission_spec env st1 timestamp (by rw [f1, f2]; exact hlen) hend
  refine ⟨{ st1 with calls := st1.calls ++ post }, new, post, ?_, ⟨f1, f2, f3, f4, ?_⟩,
    ?_, hidx, hfail⟩
  · simp only [transmit_all_instances, hloop]
    exact hnext
  · simp only [f5, List.append_assoc]
  · intro c hc
    rcases hcase with ⟨m, -, -, -, hpost⟩ | ⟨-, hpost⟩
    · rw [hpost] at hc
      simp only [List.mem_singleton] at hc
      exact ⟨_, _, hc⟩
    · rw [hpost] at hc
      simp at hc

theorem order_next_transmission_frame (env : vh_env) (st : vh_state) (time_now : Nat)
    (hlen : st.g_md_set.md.length = st.g_md_set.handle_count) :
    ∃ post, order_next_transmission env st time_now =
      some { st with calls := st.calls ++ post } := by
  have hscan := order_next_scan_eq st.g_md_set.md ((time_now + env.global_time) % 2 ^ 64)
    st.g_md_set.handle_count 0 UINT64_MAX (by omega)
  unfold order_next_transmission
  simp only [hscan]
  split
  · exact ⟨_, rfl⟩
  · exact ⟨[], by simp⟩

theorem sweep_body_not_due (env : vh_env) (timestamp : Nat) (st : vh_state)
    (hlen : st.g_md_set.md.length = st.g_md_set.handle_count)
    (hpos : 0 < st.g_md_set.handle_count)
    (hnd : ¬ due_at env timestamp st (st.handle % st.g_md_set.handle_count)) :
    sweep_body env timestamp st =
      some ({ st with handle := (st.handle % st.g_md_set.handle_count + 1) % 2 ^ 32 },
        false) := by
  have hk : cursor_wrap st.handle st.g_md_set.handle_count =
      st.handle % st.g_md_set.handle_count := cursor_wrap_eq _ _ hpos
  have hklt : st.handle % st.g_md_set.handle_count < st.g_md_set.md.length := by
    rw [hlen]
    exact Nat.mod_lt _ hpos
  have hrec := List.getElem?_eq_getElem hklt
  generalize st.g_md_set.md[st.handle % st.g_md_set.handle_count] = r at hrec
  unfold sweep_body
  simp only [hk, hrec]
  rw [if_neg]
  intro hdue
  exact hnd ⟨r, hrec, hdue.1, hdue.2⟩

theorem sweep_body_due (env : vh_env) (timestamp : Nat) (st : vh_state)
    (hpos : 0 < st.g_md_set.handle_count)
    (hd : due_at env timestamp st (st.handle % st.g_md_set.handle_count)) :
    ∃ st1 b rest,
      sweep_body env timestamp st = some (st1, b) ∧
      st1.calls = st.calls ++
        vh_call.trickle_tx_timeout (st.handle % st.g_md_set.handle_count) :: rest ∧
      st1.g_md_set.md.length = st.g_md_set.md.length ∧
      st1.g_md_set.handle_count = st.g_md_set.handle_count := by
  have hk : cursor_wrap st.handle st.g_md_set.handle_count =
      st.handle % st.g_md_set.handle_count := cursor_wrap_eq _ _ hpos
  obtain ⟨r, hrec, hu, ht⟩ := hd
  unfold sweep_body
  simp only [hk, hrec]
  rw [if_pos ⟨hu, ht⟩]
  split
  · split
    · exact ⟨_, _,
        [vh_call.tc_tx (st.handle % st.g_md_set.handle_count + 1) r.version_number
          r.last_sender_addr], rfl, rfl, by simp, rfl⟩
    · exact ⟨_, _,
        [vh_call.tc_tx (st.handle % st.g_md_set.handle_count + 1) r.version_number
          r.last_sender_addr,
         vh_call.trickle_tx_register (st.handle % st.g_md_set.handle_count)],
        rfl, rfl, by simp, rfl⟩
  · exact ⟨_, _, [], rfl, rfl, by simp, rfl⟩

theorem sweep_loop_first_query (env : vh_env) (timestamp : Nat) (j : Nat) :
    ∀ (n : Nat) (st : vh_state), j < n →
      st.g_md_set.md.length = st.g_md_set.handle_count →
      0 < st.g_md_set.handle_count → st.g_md_set.handle_count < 2 ^ 32 →
      (∀ i < j, ¬ due_at env timestamp st
        ((st.handle % st.g_md_set.handle_count + i) % st.g_md_set.handle_count)) →
      due_at env timestamp st
        ((st.handle % st.g_md_set.handle_count + j) % st.g_md_set.handle_count) →
      ∃ st1 rest,
        sweep_loop env timestamp n st = some st1 ∧
        st1.calls = st.calls ++
          vh_call.trickle_tx_timeout
            ((st.handle % st.g_md_set.handle_count + j) % st.g_md_set.handle_count) :: rest ∧
        st1.g_md_set.md.length = st1.g_md_set.handle_count := by
  induction j with
  | zero =>
    intro n st hn hlen hpos _ _ hd
    obtain ⟨n, rfl⟩ : ∃ m, n = m + 1 := ⟨n - 1, by omega⟩
    have hidx : (st.handle % st.g_md_set.handle_count + 0) % st.g_md_set.handle_count =
        st.handle % st.g_md_set.handle_count := by
      rw [Nat.add_zero, Nat.mod_mod]
    rw [hidx] at hd ⊢
    obtain ⟨st1, b, rest, hbody, hcalls, hl1, hc1⟩ := sweep_body_due env timestamp st hpos hd
    cases b with
    | true =>
      exact ⟨st1, rest, by simp only [sweep_loop, hbody], hcalls, by rw [hl1, hc1]; exact hlen⟩
    | false =>
      obtain ⟨st2, new, hloop, ⟨g1, g2, -, -, g5⟩, -, -⟩ :=
        sweep_loop_spec env timestamp n st1 (by rw [hl1, hc1]; exact hlen)
          (fun _ => by rw [hc1]; exact hpos)
      refine ⟨st2, rest ++ new, ?_, ?_, ?_⟩
      · simp only [sweep_loop, hbody]
        exact hloop
      · rw [g5, hcalls, List.append_assoc, List.cons_append]
      · rw [g1, g2, hl1, hc1]
        exact hlen
  | succ j ih =>
    intro n st hn hlen hpos h32 hnd hd
    obtain ⟨n, rfl⟩ : ∃ m, n = m + 1 := ⟨n - 1, by omega⟩
    have hklt : st.handle % st.g_md_set.handle_count < st.g_md_set.handle_count :=
      Nat.mod_lt _ hpos
    have h0 : ¬ due_at env timestamp st (st.handle % st.g_md_set.handle_count) := by
      have h := hnd 0 (Nat.succ_pos j)
      rw [Nat.add_zero, Nat.mod_mod] at h
      exact h
    have hbody := sweep_body_not_due env timestamp st hlen hpos h0
    have hnext : ((st.handle % st.g_md_set.handle_count + 1) % 2 ^ 32) %
        st.g_md_set.handle_count =
        (st.handle % st.g_md_set.handle_count + 1) % st.g_md_set.handle_count := by
      rw [Nat.mod_eq_of_lt (a := st.handle % st.g_md_set.handle_count + 1) (by omega)]
    have hshift : ∀ i, ((st.handle % st.g_md_set.handle_count + 1) %
        st.g_md_set.handle_count + i) % st.g_md_set.handle_count =
        (st.handle % st.g_md_set.handle_count + (i + 1)) % st.g_md_set.handle_count := by
      intro i
      rw [Nat.mod_add_mod, Nat.add_assoc, Nat.add_comm 1 i]
    obtain ⟨st1, rest, hloop, hcalls, hl1⟩ :=
      ih n { st with handle := (st.handle % st.g_md_set.handle_count + 1) % 2 ^ 32 }
        (by omega) hlen hpos h32
        (by
          intro i hi
          show ¬ due_at env timestamp st _
          simp only [hnext, hshift]
          exact hnd (i + 1) (by omega))
        (by
          show due_at env timestamp st _
          simp only [hnext, hshift]
          exact hd)
    refine ⟨st1, rest, ?_, ?_, hl1⟩
    · simp only [sweep_loop, hbody]
      exact hloop
    · simp only [hnext, hshift] at hcalls
      exact hcalls

theorem transmit_all_instances_first_query (env : vh_env) (timestamp j : Nat)
    (st : vh_state)
    (hlen : st.g_md_set.md.length = st.g_md_set.handle_count)
    (h32 : st.g_md_set.handle_count < 2 ^ 32) (hj : j < st.g_md_set.handle_count)
    (hnd : ∀ i < j, ¬ due_at env timestamp st
      ((st.handle % st.g_md_set.handle_count + i) % st.g_md_set.handle_count))
    (hd : due_at env timestamp st
      ((st.handle % st.g_md_set.handle_count + j) % st.g_md_set.handle_count)) :
    ∃ st1 rest,
      transmit_all_instances env st timestamp = some st1 ∧
      st1.calls = st.calls ++
        vh_call.trickle_tx_timeout
          ((st.handle % st.g_md_set.handle_count + j) % st.g_md_set.handle_count) :: rest := by
  obtain ⟨st1, rest, hloop, hcalls, hl1⟩ :=
    sweep_loop_first_query env timestamp j st.g_md_set.handle_count st hj hlen (by omega)
      h32 hnd hd
  obtain ⟨post, hnext⟩ := order_next_transmission_frame env st1 timestamp hl1
  refine ⟨{ st1 with calls := st1.calls ++ post }, rest ++ post, ?_, ?_⟩
  · simp only [transmit_all_instances, hloop]
    exact hnext
  · simp only [hcalls, List.append_assoc, List.cons_append]

theorem transmit_all_instances_returns (env : vh_env) (timestamp : Nat) (st : vh_state)
    (hlen : st.g_md_set.md.length = st.g_md_set.handle_count) :
    ∃ st1 new,
      transmit_all_instances env st timestamp = some st1 ∧ st1.calls = st.calls ++ new := by
  obtain ⟨st1, new, hloop, ⟨f1, f2, -, -, f5⟩, -, -⟩ :=
    sweep_loop_spec env timestamp st.g_md_set.handle_count st hlen (fun h => h)
  obtain ⟨post, hnext⟩ :=
    order_next_transmission_frame env st1 timestamp (by rw [f1, f2]; exact hlen)
  refine ⟨{ st1 with calls := st1.calls ++ post }, new ++ post, ?_, ?_⟩
  · simp only [transmit_all_instances, hloop]
    exact hnext
  · simp only [f5, List.append_assoc]

/-- C17: a sweep over an array of `handle_count` records returns; if in it the
transport send for the value at index k (handle k + 1) returns a non-success
result, that send is the last Trickle query or send of the pass (only the
call of `timer_order_cb` may follow it) and the persistent cursor is left
equal to k. The next call of `transmit_all_instances`, with any timestamp and
any answers of the collaborators, returns and goes through the records in the
order k, k + 1, ... (modulo `handle_count`): when the records at the first `j`
positions of that order are not due and the one at position `j` is, the first
call it makes is the Trickle timeout query for index (k + j) mod
`handle_count`; for `j = 0` that is index k itself. -/
theorem sweep_stops_at_backpressure (env : vh_env) (st : vh_state) (timestamp : Nat)
    (hlen : st.g_md_set.md.length = st.g_md_set.handle_count)
    (hend : env.end_time ≤ UINT64_MAX) :
    ∃ st1 new,
      transmit_all_instances env st timestamp = some st1 ∧
      st1.calls = st.calls ++ new ∧
      st1.g_md_set.handle_count = st.g_md_set.handle_count ∧
      ∀ k v a, vh_call.tc_tx (k + 1) v a ∈ new → env.tc_tx (k + 1) v a ≠ NRF_SUCCESS →
        (∃ pre post, new = pre ++ [vh_call.tc_tx (k + 1) v a] ++ post ∧
          ∀ c ∈ post, ∃ timer time, c = vh_call.timer_order_cb timer time) ∧
        st1.handle = k ∧
        cursor_wrap st1.handle st1.g_md_set.handle_count = k ∧
        (∀ (env2 : vh_env) (timestamp2 : Nat),
          ∃ st2 new2,
            transmit_all_instances env2 st1 timestamp2 = some st2 ∧
            st2.calls = st1.calls ++ new2) ∧
        (∀ (env2 : vh_env) (timestamp2 j : Nat),
          st1.g_md_set.handle_count < 2 ^ 32 → j < st1.g_md_set.handle_count →
          (∀ i < j, ¬ due_at env2 timestamp2 st1 ((k + i) % st1.g_md_set.handle_count)) →
          due_at env2 timestamp2 st1 ((k + j) % st1.g_md_set.handle_count) →
          ∃ st2 rest,
            transmit_all_instances env2 st1 timestamp2 = some st2 ∧
            st2.calls = st1.calls ++
              vh_call.trickle_tx_timeout ((k + j) % st1.g_md_set.handle_count) :: rest) := by
  obtain ⟨st1, new, post, hrun, ⟨f1, f2, f3, f4, f5⟩, hpost, hidx, hfail⟩ :=
    transmit_all_instances_spec env st timestamp hlen hend
  have hlen1 : st1.g_md_set.md.length = st1.g_md_set.handle_count := by
    rw [f1, f2]
    exact hlen
  refine ⟨st1, new ++ post, hrun, f5, f2, ?_⟩
  intro k v a hmem hne
  have hin : vh_call.tc_tx (k + 1) v a ∈ new := by
    rcases List.mem_append.mp hmem with h | h
    · exact h
    · obtain ⟨timer, time, hc⟩ := hpost _ h
      cases hc
  obtain ⟨e1, e2, pre, e3⟩ := hfail (k + 1) v a hin hne
  have hk : st1.handle = k := by omega
  have hkmod : st1.handle % st1.g_md_set.handle_count = k := by
    rw [Nat.mod_eq_of_lt e2]
    exact hk
  refine ⟨⟨pre, post, by rw [e3], hpost⟩, hk, ?_, ?_, ?_⟩
  · rw [cursor_wrap_eq _ _ (by omega)]
    exact hkmod
  · intro env2 timestamp2
    exact transmit_all_instances_returns env2 timestamp2 st1 hlen1
  · intro env2 timestamp2 j h32 hj hnd hd
    have h := transmit_all_instances_first_query env2 timestamp2 j st1 hlen1 h32 hj
      (by rw [hkmod]; exact hnd) (by rw [hkmod]; exact hd)
    rw [hkmod] at h
    exact h

/-- C17 exercised: three due values, the transport refuses handle 2. -/
theorem sweep_stops_at_backpressure_witness :
    ∃ st1 new,
      transmit_all_instances ex_env
        (ex_state [ex_used_record 5 0, ex_used_record 6 0, ex_used_record 7 0]) 50 =
        some st1 ∧
      st1.calls =
        (ex_state [ex_used_record 5 0, ex_used_record 6 0, ex_used_record 7 0]).calls ++ new ∧
      st1.g_md_set.handle_count =
        (ex_state [ex_used_record 5 0, ex_used_record 6 0,
          ex_used_record 7 0]).g_md_set.handle_count ∧
      ∀ k v a, vh_call.tc_tx (k + 1) v a ∈ new → ex_env.tc_tx (k + 1) v a ≠ NRF_SUCCESS →
        (∃ pre post, new = pre ++ [vh_call.tc_tx (k + 1) v a] ++ post ∧
          ∀ c ∈ post, ∃ timer time, c = vh_call.timer_order_cb timer time) ∧
        st1.handle = k ∧
        cursor_wrap st1.handle st1.g_md_set.handle_count = k ∧
        (∀ (env2 : vh_env) (timestamp2 : Nat),
          ∃ st2 new2,
            transmit_all_instances env2 st1 timestamp2 = some st2 ∧
            st2.calls = st1.calls ++ new2) ∧
        (∀ (env2 : vh_env) (timestamp2 j : Nat),
          st1.g_md_set.handle_count < 2 ^ 32 → j < st1.g_md_set.handle_count →
          (∀ i < j, ¬ due_at env2 timestamp2 st1 ((k + i) % st1.g_md_set.handle_count)) →
          due_at env2 timestamp2 st1 ((k + j) % st1.g_md_set.handle_count) →
          ∃ st2 rest,
            transmit_all_instances env2 st1 timestamp2 = some st2 ∧
            st2.calls = st1.calls ++
              vh_call.trickle_tx_timeout ((k + j) % st1.g_md_set.handle_count) :: rest) :=
  sweep_stops_at_backpressure ex_env
    (ex_state [ex_used_record 5 0, ex_used_record 6 0, ex_used_record 7 0]) 50
    (by decide) (by decide)

theorem sweep_example_resume :
    ((transmit_all_instances ex_env
        (ex_state [ex_used_record 5 0, ex_used_record 6 0, ex_used_record 7 0]) 50).bind
      (fun st1 => transmit_all_instances ex_env st1 100)).map
      (fun st2 => (st2.handle, st2.calls)) =
    some (1,
      [vh_call.trickle_tx_timeout 0, vh_call.tc_tx 1 5 ex_peer_addr,
       vh_call.trickle_tx_register 0, vh_call.trickle_tx_timeout 1,
       vh_call.tc_tx 2 6 ex_peer_addr, vh_call.timer_order_cb 2 90,
       vh_call.trickle_tx_timeout 1, vh_call.tc_tx 2 6 ex_peer_addr,
       vh_call.timer_order_cb 2 140]) ∧
    ((transmit_all_instances ex_env
        (ex_state [ex_used_record 5 0, ex_used_record 6 0, ex_used_record 7 0]) 50).bind
      (fun st1 => transmit_all_instances
        { ex_env with tc_tx := fun _ _ _ => NRF_SUCCESS } st1 100)).map
      (fun st2 => (st2.handle, st2.calls.drop 6)) =
    some (1,
      [vh_call.trickle_tx_timeout 1, vh_call.tc_tx 2 6 ex_peer_addr,
       vh_call.trickle_tx_register 1, vh_call.trickle_tx_timeout 2,
       vh_call.tc_tx 3 7 ex_peer_addr, vh_call.trickle_tx_register 2,
       vh_call.trickle_tx_timeout 0, vh_call.tc_tx 1 5 ex_peer_addr,
       vh_call.trickle_tx_register 0, vh_call.timer_order_cb 2 140]) := by
  decide

/-! ## Unused records -/

theorem order_next_pick_unused (limit e : Nat) (r : metadata_t) (hu : md_used r = false) :
    order_next_pick limit e r = e := by
  unfold order_next_pick
  rw [if_neg]
  intro h
  unfold md_used at hu
  rw [h.1] at hu
  cases hu

theorem order_next_scan_set (md : List metadata_t) (limit j : Nat) (r q : metadata_t)
    (hj : md[j]? = some r) (hr : md_used r = false) (hq : md_used q = false) :
    ∀ n i e, order_next_scan (md.set j q) limit n i e = order_next_scan md limit n i e := by
  intro n
  induction n with
  | zero =>
    intro i e
    rfl
  | succ n ih =>
    intro i e
    simp only [order_next_scan]
    by_cases hji : j = i
    · subst hji
      have hlt : j < md.length := by
        by_contra hge
        rw [List.getElem?_eq_none (by omega)] at hj
        cases hj
      rw [List.getElem?_set_self hlt, hj]
      simp only [order_next_pick_unused _ _ _ hr, order_next_pick_unused _ _ _ hq]
      exact ih _ _
    · rw [List.getElem?_set_ne hji]
      cases md[i]? with
      | none => rfl
      | some r0 => exact ih _ _

/-- C19: a record whose USED flag is clear takes no part in a sweep or in the
timer ordering, whatever its other fields. A sweep over an array of
`handle_count` records returns without a Trickle timeout query, a transport
send or a Trickle registration for it; and replacing it by any other record
with USED clear, in particular one with a different `trickle.t`, leaves
unchanged whether and with which compare time `order_next_transmission` calls
`timer_order_cb`. -/
theorem unused_record_excluded (env : vh_env) (st : vh_state) (timestamp j : Nat)
    (r : metadata_t)
    (hlen : st.g_md_set.md.length = st.g_md_set.handle_count)
    (hend : env.end_time ≤ UINT64_MAX)
    (hj : st.g_md_set.md[j]? = some r) (hunused : md_used r = false) :
    (∃ st1 new,
      transmit_all_instances env st timestamp = some st1 ∧
      st1.calls = st.calls ++ new ∧
      vh_call.trickle_tx_timeout j ∉ new ∧
      (∀ v a, vh_call.tc_tx (j + 1) v a ∉ new) ∧
      vh_call.trickle_tx_register j ∉ new) ∧
    (∀ (q : metadata_t) (time_now : Nat), md_used q = false →
      ∃ post,
        order_next_transmission env st time_now =
          some { st with calls := st.calls ++ post } ∧
        order_next_transmission env
            { st with g_md_set := { st.g_md_set with md := st.g_md_set.md.set j q } }
            time_now =
          some { st with
            g_md_set := { st.g_md_set with md := st.g_md_set.md.set j q },
            calls := st.calls ++ post }) := by
  constructor
  · obtain ⟨st1, new, post, hrun, ⟨f1, f2, f3, f4, f5⟩, hpost, hidx, -⟩ :=
      transmit_all_instances_spec env st timestamp hlen hend
    have hno : ∀ c ∈ new ++ post, c.index ≠ some j := by
      intro c hc hi
      rcases List.mem_append.mp hc with h | h
      · obtain ⟨r0, hr0, hu0⟩ := hidx c h j hi
        rw [hj] at hr0
        cases hr0
        rw [hunused] at hu0
        cases hu0
      · obtain ⟨timer, time, hct⟩ := hpost c h
        rw [hct] at hi
        cases hi
    refine ⟨st1, new ++ post, hrun, f5, ?_, ?_, ?_⟩
    · intro hmem
      exact hno _ hmem rfl
    · intro v a hmem
      exact hno _ hmem rfl
    · intro hmem
      exact hno _ hmem rfl
  · intro q time_now hq
    obtain ⟨post, hrun, -⟩ := order_next_transmission_spec env st time_now hlen hend
    refine ⟨post, hrun, ?_⟩
    unfold order_next_transmission at hrun ⊢
    dsimp only at hrun ⊢
    rw [order_next_scan_set st.g_md_set.md _ j r q hj hunused hq]
    cases hscan : order_next_scan st.g_md_set.md ((time_now + env.global_time) % 2 ^ 64)
        st.g_md_set.handle_count 0 UINT64_MAX with
    | none =>
      rw [hscan] at hrun
      cases hrun
    | some earliest =>
      rw [hscan] at hrun
      simp only at hrun ⊢
      by_cases hlt : earliest < env.end_time
      · rw [if_pos hlt] at hrun ⊢
        have hcalls := congrArg (fun o => o.map (fun s => s.calls)) hrun
        simp only [Option.map_some'] at hcalls
        rw [Option.some.injEq] at hcalls
        simp only [hcalls]
      · rw [if_neg hlt] at hrun ⊢
        have hcalls := congrArg (fun o => o.map (fun s => s.calls)) hrun
        simp only [Option.map_some'] at hcalls
        rw [Option.some.injEq] at hcalls
        simp only [← hcalls]

/-- C19 exercised: the middle record is not USED although it is due. -/
theorem unused_record_excluded_witness :
    ∃ st1 new,
      transmit_all_instances ex_env
        (ex_state [ex_used_record 5 0, { ex_used_record 6 0 with flags := 2 },
          ex_used_record 7 0]) 50 = some st1 ∧
      st1.calls =
        (ex_state [ex_used_record 5 0, { ex_used_record 6 0 with flags := 2 },
          ex_used_record 7 0]).calls ++ new ∧
      vh_call.trickle_tx_timeout 1 ∉ new ∧
      (∀ v a, vh_call.tc_tx (1 + 1) v a ∉ new) ∧
      vh_call.trickle_tx_register 1 ∉ new :=
  (unused_record_excluded ex_env
    (ex_state [ex_used_record 5 0, { ex_used_record 6 0 with flags := 2 },
      ex_used_record 7 0]) 50 1 { ex_used_record 6 0 with flags := 2 }
    (by decide) (by decide) rfl (by decide)).1

/-! ## Increments against the comparison -/

theorem version_increase_iterate (v : Nat) (hv : v < 65536) :
    ∀ k, k < 32667 →
      version_increase^[k] v = if v + k ≤ 65535 then v + k else v + k - 65336 := by
  intro k
  induction k with
  | zero =>
    intro _
    simp only [Function.iterate_zero, id_eq, Nat.add_zero]
    rw [if_pos (by omega)]
  | succ k ih =>
    intro hk
    rw [Function.iterate_succ_apply', ih (by omega)]
    unfold version_increase UINT16_MAX MESH_VALUE_LOLLIPOP_LIMIT
    by_cases h1 : v + k ≤ 65535
    · rw [if_pos h1]
      by_cases h2 : v + k = 65535
      · rw [if_pos h2, if_neg (by omega)]
        omega
      · rw [if_neg h2, if_pos (by omega)]
        omega
    · rw [if_neg h1, if_neg (by omega), if_neg (by omega)]
      omega

/-- C20: on an INITIALIZED record, for every 16-bit version `v` and every `k`
with `1 ≤ k < 32667`, the version `w` reached from `v` by `k` applications of
`version_increase` is classified UPDATED when incoming against stored `v`, and
`v` is classified OLD when incoming against stored `w`. This covers the
rollover from 65535 to 200. -/
theorem compare_after_increments (env : vh_env) (st : vh_state) (handle v k crc : Nat)
    (origin_is_me : Bool) (p_md : metadata_t)
    (hready : vh_ready st) (h1 : 1 ≤ handle) (h2 : handle ≤ st.g_md_set.handle_count)
    (hrec : st.g_md_set.md[handle - 1]? = some p_md)
    (hinit : md_initialized p_md = true)
    (hv16 : v < 65536) (hk1 : 1 ≤ k) (hk : k < 32667) :
    (p_md.version_number = v →
      vh_compare_metadata env st handle (version_increase^[k] v) crc origin_is_me =
        some VH_DATA_STATUS_UPDATED) ∧
    (p_md.version_number = version_increase^[k] v →
      vh_compare_metadata env st handle v crc origin_is_me = some VH_DATA_STATUS_OLD) := by
  rw [vh_compare_metadata_at env st handle _ crc origin_is_me p_md hready h1 h2 hrec,
    vh_compare_metadata_at env st handle v crc origin_is_me p_md hready h1 h2 hrec,
    version_increase_iterate v hv16 k hk]
  have hni : ¬ (md_initialized p_md = false) := by simp [hinit]
  by_cases hwrap : v + k ≤ 65535
  · rw [if_pos hwrap]
    constructor
    · intro hs
      rw [if_neg (by omega), if_neg hni]
      by_cases hlow : v < 200
      · rw [if_pos (Or.inl ⟨by omega, by omega⟩)]
      · have hsep : separation (v + k) p_md.version_number = v + k - p_md.version_number :=
          separation_ge _ _ (by omega) (by omega)
        rw [if_pos (Or.inr ⟨by omega, by omega, by omega⟩)]
    · intro hs
      rw [if_neg (by omega), if_neg hni]
      by_cases hlow : v < 200
      · rw [if_neg (by omega)]
      · have hsep : separation v p_md.version_number = v + 65336 - p_md.version_number :=
          separation_lt _ _ (by omega) (by omega) (by omega)
        rw [if_neg (by omega)]
  · rw [if_neg hwrap]
    constructor
    · intro hs
      have hsep : separation (v + k - 65336) p_md.version_number =
          v + k - 65336 + 65336 - p_md.version_number :=
        separation_lt _ _ (by omega) (by omega) (by omega)
      rw [if_neg (by omega), if_neg hni, if_pos (Or.inr ⟨by omega, by omega, by omega⟩)]
    · intro hs
      have hsep : separation v p_md.version_number = v - p_md.version_number :=
        separation_ge _ _ (by omega) hv16
      rw [if_neg (by omega), if_neg hni, if_neg (by omega)]

/-- C20 exercised at the rollover: stored 65535, one increment gives 200, and
incoming 200 is UPDATED. -/
theorem compare_after_increments_witness :
    version_increase^[1] 65535 = 200 ∧
    vh_compare_metadata ex_env (ex_state [ex_record 65535 2 0]) 1
      (version_increase^[1] 65535) 0 false = some VH_DATA_STATUS_UPDATED :=
  ⟨by decide,
   (compare_after_increments ex_env (ex_state [ex_record 65535 2 0]) 1 65535 1 0 false
      (ex_record 65535 2 0) (by decide) (by decide) (by decide) rfl (by decide)
      (by decide) (by decide) (by decide)).1 rfl⟩

/-! ## Records that were never initialized -/

theorem vh_run_example :
    (vh_run ex_ops (vh_init ex_env vh_state_reset 2 100).1).map
      (fun st => st.g_md_set.md.map
        (fun r => (r.version_number, r.flags, r.crc, r.char_value_handle))) =
      some [(1, 3, 0xFFFFFFFF, 0), (0, 0, 77, 33)] ∧
    (vh_run ex_ops (vh_init ex_env vh_state_reset 2 100).1).bind
      (fun st => vh_compare_metadata ex_env st 2 0 5 false) = some VH_DATA_STATUS_SAME ∧
    (vh_run ex_ops (vh_init ex_env vh_state_reset 2 100).1).bind
      (fun st => vh_compare_metadata ex_env st 2 9 77 false) = some VH_DATA_STATUS_NEW := by
  decide

theorem vh_fresh_inv_store (st : vh_state) (handle : Nat) (q : metadata_t)
    (hinv : vh_fresh_inv st)
    (hq : md_initialized q = false → q.version_number = 0) :
    vh_fresh_inv (md_store st handle q) := by
  refine ⟨md_store_ready st handle q hinv.1, ?_⟩
  intro r hr hu
  simp only [md_store] at hr
  rcases List.mem_or_eq_of_mem_set hr with h | h
  · exact hinv.2 r h hu
  · subst h
    exact hq hu

theorem vh_fresh_inv_calls (st : vh_state) (calls : List vh_call) (hinv : vh_fresh_inv st) :
    vh_fresh_inv { st with calls := calls } :=
  ⟨⟨hinv.1.1, hinv.1.2⟩, hinv.2⟩

theorem md_initialized_or_mod (p_md q : metadata_t) (mask : Nat)
    (hq : q.flags = (p_md.flags ||| mask) % 256)
    (hmask : flag_is_set mask MESH_MD_FLAGS_INITIALIZED_POS = true) :
    md_initialized q = true := by
  unfold md_initialized
  rw [hq, flag_is_set_or_mod _ _ _ (by decide), hmask]
  simp

theorem vh_ready_record (st : vh_state) (handle : Nat) (hready : vh_ready st)
    (h1 : 1 ≤ handle) (h2 : handle ≤ st.g_md_set.handle_count) :
    ∃ p_md, st.g_md_set.md[handle - 1]? = some p_md ∧ p_md ∈ st.g_md_set.md := by
  have hlt : handle - 1 < st.g_md_set.md.length := by
    rw [hready.2]
    omega
  exact ⟨st.g_md_set.md[handle - 1], List.getElem?_eq_getElem hlt, List.getElem_mem hlt⟩

theorem vh_rx_register_inv (env : vh_env) (st : vh_state) (status : vh_data_status_t)
    (handle version crc : Nat) (origin : ble_gap_addr_t) (timestamp : Nat)
    (hinv : vh_fresh_inv st) :
    ∃ st1 code,
      vh_rx_register env st status handle version crc origin timestamp = some (st1, code) ∧
      vh_fresh_inv st1 := by
  have hinit : st.g_is_initialized = true := hinv.1.1
  unfold vh_rx_register
  rw [if_neg (by simp [hinit])]
  by_cases hrange : handle > st.g_md_set.handle_count ∨ handle = 0
  · rw [if_pos hrange]
    exact ⟨st, _, rfl, hinv⟩
  · rw [if_neg hrange]
    obtain ⟨p_md, hrec, hmem⟩ := vh_ready_record st handle hinv.1 (by omega) (by omega)
    rw [hrec]
    have hmark : ∀ q : metadata_t,
        md_initialized (rx_mark_inconsistent env q timestamp) = false →
        (rx_mark_inconsistent env q timestamp).version_number = 0 := by
      intro q hu
      rw [md_initialized_or_mod q (rx_mark_inconsistent env q timestamp)
        (1 <<< MESH_MD_FLAGS_INITIALIZED_POS) rfl (by decide)] at hu
      cases hu
    cases status with
    | VH_DATA_STATUS_NEW =>
      exact ⟨_, _, rfl, vh_fresh_inv_store _ handle _
        (vh_fresh_inv_calls st _ hinv) (hmark _)⟩
    | VH_DATA_STATUS_UPDATED =>
      exact ⟨_, _, rfl, vh_fresh_inv_store _ handle _ hinv (hmark _)⟩
    | VH_DATA_STATUS_OLD =>
      exact ⟨_, _, rfl, vh_fresh_inv_store _ handle _ hinv (hmark _)⟩
    | VH_DATA_STATUS_CONFLICTING =>
      exact ⟨_, _, rfl, vh_fresh_inv_store _ handle _ hinv (hmark _)⟩
    | VH_DATA_STATUS_SAME =>
      exact ⟨_, _, rfl, vh_fresh_inv_store _ handle _ hinv (fun hu => hinv.2 p_md hmem hu)⟩
    | VH_DATA_STATUS_UNKNOWN =>
      exact ⟨st, _, rfl, hinv⟩

theorem vh_local_update_inv (env : vh_env) (st : vh_state) (handle : Nat)
    (hinv : vh_fresh_inv st) :
    ∃ st1 status, vh_local_update env st handle = some (st1, status) ∧ vh_fresh_inv st1 := by
  have hinit : st.g_is_initialized = true := hinv.1.1
  unfold vh_local_update
  rw [if_neg (by simp [hinit])]
  by_cases hrange : handle > st.g_md_set.handle_count ∨ handle = 0
  · rw [if_pos hrange]
    exact ⟨st, _, rfl, hinv⟩
  · rw [if_neg hrange]
    obtain ⟨p_md, hrec, -⟩ := vh_ready_record st handle hinv.1 (by omega) (by omega)
    rw [hrec]
    refine ⟨_, _, rfl, vh_fresh_inv_calls _ _ (vh_fresh_inv_store st handle _ hinv ?_)⟩
    intro hu
    rw [md_initialized_or_mod p_md _
      ((1 <<< MESH_MD_FLAGS_INITIALIZED_POS) ||| (1 <<< MESH_MD_FLAGS_USED_POS))
      rfl (by decide)] at hu
    cases hu

theorem vh_value_enable_inv (env : vh_env) (st : vh_state) (handle : Nat)
    (hinv : vh_fresh_inv st) :
    ∃ st1 code, vh_value_enable env st handle = some (st1, code) ∧ vh_fresh_inv st1 := by
  have hinit : st.g_is_initialized = true := hinv.1.1
  unfold vh_value_enable
  rw [if_neg (by simp [hinit])]
  by_cases hrange : handle > st.g_md_set.handle_count ∨ handle = 0
  · rw [if_pos hrange]
    exact ⟨st, _, rfl, hinv⟩
  · rw [if_neg hrange]
    obtain ⟨p_md, hrec, -⟩ := vh_ready_record st handle hinv.1 (by omega) (by omega)
    have hrec1 : (vh_order_update env st 0).1.g_md_set.md[handle - 1]? = some p_md := hrec
    dsimp only
    rw [hrec1]
    refine ⟨_, _, rfl, vh_fresh_inv_store _ handle _ (vh_fresh_inv_calls st _ hinv) ?_⟩
    intro hu
    rw [md_initialized_or_mod p_md _
      ((1 <<< MESH_MD_FLAGS_INITIALIZED_POS) ||| (1 <<< MESH_MD_FLAGS_USED_POS))
      rfl (by decide)] at hu
    cases hu

theorem vh_value_disable_inv (st : vh_state) (handle : Nat) (hinv : vh_fresh_inv st) :
    ∃ st1 code, vh_value_disable st handle = some (st1, code) ∧ vh_fresh_inv st1 := by
  have hinit : st.g_is_initialized = true := hinv.1.1
  unfold vh_value_disable
  rw [if_neg (by simp [hinit])]
  by_cases hrange : handle ≥ st.g_md_set.handle_count ∨ handle = 0
  · rw [if_pos hrange]
    exact ⟨st, _, rfl, hinv⟩
  · rw [if_neg hrange]
    obtain ⟨p_md, hrec, hmem⟩ := vh_ready_record st handle hinv.1 (by omega) (by omega)
    rw [hrec]
    refine ⟨_, _, rfl, vh_fresh_inv_store st handle _ hinv ?_⟩
    intro hu
    have hflag : md_initialized
        { p_md with flags := (p_md.flags &&& int_not_bit MESH_MD_FLAGS_USED_POS) % 256 } =
        md_initialized p_md := by
      have h := flag_is_set_bitmap_clr p_md.flags MESH_MD_FLAGS_USED_POS
        MESH_MD_FLAGS_INITIALIZED_POS (by decide) (by decide)
      simp only [md_initialized]
      rw [show (p_md.flags &&& int_not_bit MESH_MD_FLAGS_USED_POS) % 256 =
        bitmap_clr p_md.flags MESH_MD_FLAGS_USED_POS from rfl, h]
      simp [MESH_MD_FLAGS_INITIALIZED_POS, MESH_MD_FLAGS_USED_POS]
    rw [hflag] at hu
    exact hinv.2 p_md hmem hu

theorem vh_set_gatts_handle_inv (st : vh_state) (value_handle gatts_handle : Nat)
    (hinv : vh_fresh_inv st) :
    ∃ st1 code,
      vh_set_gatts_handle st value_handle gatts_handle = some (st1, code) ∧
      vh_fresh_inv st1 := by
  have hinit : st.g_is_initialized = true := hinv.1.1
  unfold vh_set_gatts_handle
  rw [if_neg (by simp [hinit])]
  by_cases hrange : value_handle > st.g_md_set.handle_count ∨ value_handle = 0
  · rw [if_pos hrange]
    exact ⟨st, _, rfl, hinv⟩
  · rw [if_neg hrange]
    obtain ⟨p_md, hrec, hmem⟩ := vh_ready_record st value_handle hinv.1 (by omega) (by omega)
    rw [hrec]
    exact ⟨_, _, rfl, vh_fresh_inv_store st value_handle _ hinv
      (fun hu => hinv.2 p_md hmem hu)⟩

theorem transmit_all_instances_inv (env : vh_env) (st : vh_state) (timestamp : Nat)
    (hinv : vh_fresh_inv st) :
    ∃ st1, transmit_all_instances env st timestamp = some st1 ∧ vh_fresh_inv st1 := by
  obtain ⟨st1, new, hloop, ⟨f1, f2, f3, f4, -⟩, -, -⟩ :=
    sweep_loop_spec env timestamp st.g_md_set.handle_count st hinv.1.2 (fun h => h)
  obtain ⟨post, hnext⟩ :=
    order_next_transmission_frame env st1 timestamp (by rw [f1, f2]; exact hinv.1.2)
  have hinv1 : vh_fresh_inv st1 := by
    refine ⟨⟨by rw [f3]; exact hinv.1.1, by rw [f1, f2]; exact hinv.1.2⟩, ?_⟩
    intro r1 hr1 hu
    have hm : md_static r1 ∈ st1.g_md_set.md.map md_static := List.mem_map_of_mem _ hr1
    rw [f4] at hm
    obtain ⟨r, hr, heq⟩ := List.mem_map.mp hm
    simp only [md_static, Prod.mk.injEq] at heq
    have hflags : md_initialized r = md_initialized r1 := by
      unfold md_initialized
      rw [heq.2.2.1]
    rw [← heq.1]
    exact hinv.2 r hr (by rw [hflags]; exact hu)
  refine ⟨{ st1 with calls := st1.calls ++ post }, ?_, vh_fresh_inv_calls st1 _ hinv1⟩
  simp only [transmit_all_instances, hloop]
  exact hnext

theorem vh_step_inv (op : vh_op) (st : vh_state) (hinv : vh_fresh_inv st) :
    ∃ st1, vh_step op st = some st1 ∧ vh_fresh_inv st1 := by
  cases op with
  | rx_register env status handle version crc origin timestamp =>
    obtain ⟨st1, code, hrun, h⟩ :=
      vh_rx_register_inv env st status handle version crc origin timestamp hinv
    exact ⟨st1, by simp [vh_step, hrun], h⟩
  | local_update env handle =>
    obtain ⟨st1, status, hrun, h⟩ := vh_local_update_inv env st handle hinv
    exact ⟨st1, by simp [vh_step, hrun], h⟩
  | value_enable env handle =>
    obtain ⟨st1, code, hrun, h⟩ := vh_value_enable_inv env st handle hinv
    exact ⟨st1, by simp [vh_step, hrun], h⟩
  | value_disable handle =>
    obtain ⟨st1, code, hrun, h⟩ := vh_value_disable_inv st handle hinv
    exact ⟨st1, by simp [vh_step, hrun], h⟩
  | set_gatts_handle value_handle gatts_handle =>
    obtain ⟨st1, code, hrun, h⟩ := vh_set_gatts_handle_inv st value_handle gatts_handle hinv
    exact ⟨st1, by simp [vh_step, hrun], h⟩
  | sweep env timestamp =>
    obtain ⟨st1, hrun, h⟩ := transmit_all_instances_inv env st timestamp hinv
    exact ⟨st1, by simp [vh_step, hrun], h⟩

theorem vh_run_inv (ops : List vh_op) :
    ∀ st : vh_state, vh_fresh_inv st →
      ∃ st1, vh_run ops st = some st1 ∧ vh_fresh_inv st1 := by
  induction ops with
  | nil =>
    intro st hinv
    exact ⟨st, rfl, hinv⟩
  | cons op ops ih =>
    intro st hinv
    obtain ⟨st1, hstep, hinv1⟩ := vh_step_inv op st hinv
    obtain ⟨st2, hrun, hinv2⟩ := ih st1 hinv1
    exact ⟨st2, by simp only [vh_run, hstep]; exact hrun, hinv2⟩

theorem vh_init_fresh_inv (env : vh_env) (st : vh_state) (handle_count min_interval_us : Nat)
    (h : (vh_init env st handle_count min_interval_us).2 = NRF_SUCCESS) :
    vh_fresh_inv (vh_init env st handle_count min_interval_us).1 := by
  refine ⟨vh_init_success_ready env st handle_count min_interval_us h, ?_⟩
  unfold vh_init at h ⊢
  by_cases hc : handle_count = 0 ∨ handle_count > env.MAX_VALUE_COUNT
  · simp [hc] at h
  · by_cases ha : env.calloc_ok = false
    · simp [hc, ha] at h
    · simp only [hc, ha]
      intro r hr _
      rw [List.eq_of_mem_replicate hr]
      rfl

/-- C21: from the state left by a successful `vh_init`, every sequence of
`vh_rx_register` (any status and arguments), `vh_local_update`,
`vh_value_enable`, `vh_value_disable`, `vh_set_gatts_handle` and sweep calls
runs to a state in which the engine is still set up and every record of a
handle in range whose INITIALIZED flag is clear has version 0; on such a record
`vh_compare_metadata` returns SAME for incoming version 0 and NEW for every
other incoming version, hence never UPDATED, OLD or CONFLICTING. -/
theorem uninitialized_record_has_version_zero (env0 : vh_env) (st0 : vh_state)
    (handle_count min_interval_us : Nat) (ops : List vh_op)
    (hinit : (vh_init env0 st0 handle_count min_interval_us).2 = NRF_SUCCESS) :
    ∃ st,
      vh_run ops (vh_init env0 st0 handle_count min_interval_us).1 = some st ∧
      vh_ready st ∧
      (∀ r ∈ st.g_md_set.md, md_initialized r = false → r.version_number = 0) ∧
      ∀ (env : vh_env) (handle : Nat) (p_md : metadata_t),
        1 ≤ handle → handle ≤ st.g_md_set.handle_count →
        st.g_md_set.md[handle - 1]? = some p_md → md_initialized p_md = false →
        p_md.version_number = 0 ∧
        (∀ crc origin_is_me,
          vh_compare_metadata env st handle 0 crc origin_is_me =
            some VH_DATA_STATUS_SAME) ∧
        (∀ version crc origin_is_me, version ≠ 0 →
          vh_compare_metadata env st handle version crc origin_is_me =
            some VH_DATA_STATUS_NEW) ∧
        (∀ version crc origin_is_me,
          vh_compare_metadata env st handle version crc origin_is_me ≠
            some VH_DATA_STATUS_UPDATED ∧
          vh_compare_metadata env st handle version crc origin_is_me ≠
            some VH_DATA_STATUS_OLD ∧
          vh_compare_metadata env st handle version crc origin_is_me ≠
            some VH_DATA_STATUS_CONFLICTING) := by
  obtain ⟨st, hrun, hready, hzero⟩ :=
    vh_run_inv ops _ (vh_init_fresh_inv env0 st0 handle_count min_interval_us hinit)
  refine ⟨st, hrun, hready, hzero, ?_⟩
  intro env handle p_md h1 h2 hrec hu
  have hmem : p_md ∈ st.g_md_set.md := List.getElem?_mem hrec
  have hv : p_md.version_number = 0 := hzero p_md hmem hu
  have hsame : ∀ crc origin_is_me,
      vh_compare_metadata env st handle 0 crc origin_is_me = some VH_DATA_STATUS_SAME := by
    intro crc origin_is_me
    rw [vh_compare_metadata_at env st handle 0 crc origin_is_me p_md hready h1 h2 hrec,
      if_pos hv.symm, if_pos (Or.inr (Or.inr rfl))]
  have hnew : ∀ version crc origin_is_me, version ≠ 0 →
      vh_compare_metadata env st handle version crc origin_is_me =
        some VH_DATA_STATUS_NEW := by
    intro version crc origin_is_me hne
    rw [vh_compare_metadata_at env st handle version crc origin_is_me p_md hready h1 h2 hrec,
      if_neg (by rw [hv]; exact hne), if_pos hu]
  refine ⟨hv, hsame, hnew, ?_⟩
  intro version crc origin_is_me
  by_cases hz : version = 0
  · subst hz
    rw [hsame crc origin_is_me]
    exact ⟨by decide, by decide, by decide⟩
  · rw [hnew version crc origin_is_me hz]
    exact ⟨by decide, by decide, by decide⟩

/-- C21 exercised: a two-value engine after a sample sequence of all six kinds
of calls. -/
theorem uninitialized_record_has_version_zero_witness :
    ∃ st,
      vh_run ex_ops (vh_init ex_env vh_state_reset 2 100).1 = some st ∧
      vh_ready st ∧
      (∀ r ∈ st.g_md_set.md, md_initialized r = false → r.version_number = 0) ∧
      ∀ (env : vh_env) (handle : Nat) (p_md : metadata_t),
        1 ≤ handle → handle ≤ st.g_md_set.handle_count →
        st.g_md_set.md[handle - 1]? = some p_md → md_initialized p_md = false →
        p_md.version_number = 0 ∧
        (∀ crc origin_is_me,
          vh_compare_metadata env st handle 0 crc origin_is_me =
            some VH_DATA_STATUS_SAME) ∧
        (∀ version crc origin_is_me, version ≠ 0 →
          vh_compare_metadata env st handle version crc origin_is_me =
            some VH_DATA_STATUS_NEW) ∧
        (∀ version crc origin_is_me,
          vh_compare_metadata env st handle version crc origin_is_me ≠
            some VH_DATA_STATUS_UPDATED ∧
          vh_compare_metadata env st handle version crc origin_is_me ≠
            some VH_DATA_STATUS_OLD ∧
          vh_compare_metadata env st handle version crc origin_is_me ≠
            some VH_DATA_STATUS_CONFLICTING) :=
  uninitialized_record_has_version_zero ex_env vh_state_reset 2 100 ex_ops (by decide)
